import Mathlib

/-!
Shallow embedding of the PM4 command-stream interpreter of the xenia-canary
GPU emulator (`src/xenia/gpu/pm4_command_processor_implement.h`), together
with proofs about the embedded interpreter.

The interpreter state (ring reader, register file, guest memory, constant
banks, bin mask / bin select, trace and backend call logs) is threaded
explicitly.  Machine integers are modelled as `Nat` with explicit masking
where the C++ code relies on 32-bit wraparound.  The mutually recursive
packet-execution functions take an explicit fuel parameter; `none` stands
for a computation that does not return (exhausted fuel / divergence).

Parts of the repository that the translated header depends on but whose
sources are not provided (the `RingBuffer` class, register and opcode
number tables, `GpuSwap`, the bulk register-bank writers, the
`xe_gpu_depth_sample_counts` struct, cvars) are modelled from the
specification; each such definition carries a doc comment starting with
`Modelled from the spec:`.
-/

namespace PM4

/-- Modelled from the spec: byte swap of a 32-bit value (big-endian guest
words are swapped to host order on read, §3 and §4.1 of the spec; the
`xe::byte_swap` / `ReadAndSwap` primitives are not part of the provided
sources). -/
def bswap32 (x : Nat) : Nat :=
  let b0 := x % 256
  let b1 := x / 256 % 256
  let b2 := x / 65536 % 256
  let b3 := x / 16777216 % 256
  b0 * 16777216 + b1 * 65536 + b2 * 256 + b3

/-- Modelled from the spec: byte swap of a 16-bit value
(`xe::byte_swap<unsigned short>`). -/
def bswap16 (x : Nat) : Nat :=
  (x % 256) * 256 + x / 256 % 256

/-- Modelled from the spec: swap the bytes inside each 16-bit half of a
32-bit value (`k8in16` endianness mode, §4.3). -/
def swap8in16 (x : Nat) : Nat :=
  bswap16 (x % 65536) + 65536 * bswap16 (x / 65536 % 65536)

/-- Modelled from the spec: swap the 16-bit halves of a 32-bit value
(`k16in32` endianness mode, §4.3). -/
def swap16in32 (x : Nat) : Nat :=
  (x % 65536) * 65536 + x / 65536 % 65536

/-- Modelled from the spec: `xenos::GpuSwap(value, endian)` with the
endianness encoding of §4.3 / §6: `0 = kNone`, `1 = k8in16`, `2 = k8in32`,
`3 = k16in32`. -/
def GpuSwap (value endian : Nat) : Nat :=
  match endian with
  | 0 => value
  | 1 => swap8in16 value
  | 2 => bswap32 value
  | 3 => swap16in32 value
  | _ => value

/-- Mask a (byte) address to its 4-byte boundary: C++ `addr & ~0x3` for a
32-bit address. -/
def align4 (a : Nat) : Nat := a - a % 4

/-- Modelled from the spec: the ring reader (§3, §4.1).  `base` is the
(identity-translated) guest address of the window, `capacity` its size in
bytes; `read_offset` and `write_offset` are byte cursors. -/
structure RingBuffer where
  base : Nat
  capacity : Nat
  read_offset : Nat
  write_offset : Nat
deriving DecidableEq

/-- Modelled from the spec: `RingBuffer::read_count()`, the number of bytes
available to read: `(write_offset - read_offset) mod capacity`, computed
the way the C++ class does. -/
def RingBuffer.read_count (rb : RingBuffer) : Nat :=
  if rb.read_offset ≤ rb.write_offset then rb.write_offset - rb.read_offset
  else rb.capacity - rb.read_offset + rb.write_offset

/-- Modelled from the spec: `RingBuffer::AdvanceRead(n)` advances the read
cursor by `n` bytes modulo `capacity` (§4.1). -/
def RingBuffer.AdvanceRead (rb : RingBuffer) (n : Nat) : RingBuffer :=
  { rb with read_offset := (rb.read_offset + n) % rb.capacity }

/-- Trace-writer records (§4.4).  Only the record kinds the interpreter
emits are modelled; the writer is append-only. -/
inductive TraceEvent where
  | packetStart (ptr words : Nat)
  | packetEnd
  | memoryRead (addr bytes : Nat)
  | memoryWrite (addr bytes : Nat)
  | indirectBufferStart (ptr bytes : Nat)
  | indirectBufferEnd
deriving DecidableEq

/-- Calls made to the external backend / system (§6): swaps, draws,
interrupt dispatch, shader loads, coherency requests. -/
inductive BackendEvent where
  | issueSwap (ptr w h : Nat)
  | issueDraw (primType numIndices : Nat) (indexed majorModeExplicit : Bool)
  | interrupt (source cpu : Nat)
  | loadShader (shaderType addr sizeDwords : Nat)
  | makeCoherent
deriving DecidableEq

/-- The full interpreter state owned by the command processor: ring reader,
register file, guest memory (a total map from 4-byte-aligned byte addresses
to the 32-bit word a host load returns there), the four constant banks,
the 64-bit bin mask / bin select, the frame counter, the micro-engine
buffer, active shader slots, the cooperative worker flag, and the trace and
backend call logs. -/
structure State where
  reader : RingBuffer
  regs : Nat → Nat
  mem : Nat → Nat
  aluBank : Nat → Nat
  fetchBank : Nat → Nat
  boolBank : Nat → Nat
  loopBank : Nat → Nat
  bin_mask : Nat
  bin_select : Nat
  counter : Nat
  me_bin : List Nat
  active_vertex_shader : Nat
  active_pixel_shader : Nat
  worker_running : Bool
  trace : List TraceEvent
  backend : List BackendEvent

/-- External configuration and collaborators (§6): the
`query_occlusion_fake_sample_count` cvar and the shader loader (its result
is an opaque handle). -/
structure Env where
  query_occlusion_fake_sample_count : Int
  load_shader : Nat → Nat → Nat → Nat

/-- Modelled from the spec: register index tables (`registers.h` is not in
the provided sources).  Only distinctness of the indices matters for the
claims. -/
def XE_GPU_REG_COHER_STATUS_HOST : Nat := 0x0A2B

/-- Modelled from the spec: `VGT_EVENT_INITIATOR` register index. -/
def XE_GPU_REG_VGT_EVENT_INITIATOR : Nat := 0x21F9

/-- Modelled from the spec: `VGT_DRAW_INITIATOR` register index. -/
def XE_GPU_REG_VGT_DRAW_INITIATOR : Nat := 0x21FC

/-- Modelled from the spec: `VGT_DMA_BASE` register index. -/
def XE_GPU_REG_VGT_DMA_BASE : Nat := 0x21FA

/-- Modelled from the spec: `VGT_DMA_SIZE` register index. -/
def XE_GPU_REG_VGT_DMA_SIZE : Nat := 0x21FB

/-- Modelled from the spec: `RB_SAMPLE_COUNT_ADDR` register index. -/
def XE_GPU_REG_RB_SAMPLE_COUNT_ADDR : Nat := 0x2107

/-- Modelled from the spec: `PA_SC_VIZ_QUERY` register index. -/
def XE_GPU_REG_PA_SC_VIZ_QUERY : Nat := 0x2293

/-- Modelled from the spec: `PA_SC_VIZ_QUERY_STATUS_0` register index. -/
def XE_GPU_REG_PA_SC_VIZ_QUERY_STATUS_0 : Nat := 0x0C44

/-- Modelled from the spec: `PA_SC_VIZ_QUERY_STATUS_1` register index. -/
def XE_GPU_REG_PA_SC_VIZ_QUERY_STATUS_1 : Nat := 0x0C45

/-- Modelled from the spec: PM4 Type-3 opcode numbers (`ucode.h` is not in
the provided sources; the values follow the PM4 convention and only their
distinctness and 7-bit range matter for the claims). -/
def PM4_ME_INIT : Nat := 0x48

/-- Modelled from the spec: `PM4_NOP` opcode. -/
def PM4_NOP : Nat := 0x10

/-- Modelled from the spec: `PM4_INTERRUPT` opcode. -/
def PM4_INTERRUPT : Nat := 0x54

/-- Modelled from the spec: `PM4_XE_SWAP` opcode. -/
def PM4_XE_SWAP : Nat := 0x64

/-- Modelled from the spec: `PM4_INDIRECT_BUFFER` opcode. -/
def PM4_INDIRECT_BUFFER : Nat := 0x3F

/-- Modelled from the spec: `PM4_INDIRECT_BUFFER_PFD` opcode. -/
def PM4_INDIRECT_BUFFER_PFD : Nat := 0x37

/-- Modelled from the spec: `PM4_WAIT_REG_MEM` opcode. -/
def PM4_WAIT_REG_MEM : Nat := 0x3C

/-- Modelled from the spec: `PM4_REG_RMW` opcode. -/
def PM4_REG_RMW : Nat := 0x21

/-- Modelled from the spec: `PM4_REG_TO_MEM` opcode. -/
def PM4_REG_TO_MEM : Nat := 0x3E

/-- Modelled from the spec: `PM4_MEM_WRITE` opcode. -/
def PM4_MEM_WRITE : Nat := 0x3D

/-- Modelled from the spec: `PM4_COND_WRITE` opcode. -/
def PM4_COND_WRITE : Nat := 0x45

/-- Modelled from the spec: `PM4_EVENT_WRITE` opcode. -/
def PM4_EVENT_WRITE : Nat := 0x46

/-- Modelled from the spec: `PM4_EVENT_WRITE_SHD` opcode. -/
def PM4_EVENT_WRITE_SHD : Nat := 0x58

/-- Modelled from the spec: `PM4_EVENT_WRITE_EXT` opcode. -/
def PM4_EVENT_WRITE_EXT : Nat := 0x5A

/-- Modelled from the spec: `PM4_EVENT_WRITE_ZPD` opcode. -/
def PM4_EVENT_WRITE_ZPD : Nat := 0x5B

/-- Modelled from the spec: `PM4_DRAW_INDX` opcode. -/
def PM4_DRAW_INDX : Nat := 0x22

/-- Modelled from the spec: `PM4_DRAW_INDX_2` opcode. -/
def PM4_DRAW_INDX_2 : Nat := 0x36

/-- Modelled from the spec: `PM4_SET_CONSTANT` opcode. -/
def PM4_SET_CONSTANT : Nat := 0x2D

/-- Modelled from the spec: `PM4_SET_CONSTANT2` opcode. -/
def PM4_SET_CONSTANT2 : Nat := 0x55

/-- Modelled from the spec: `PM4_LOAD_ALU_CONSTANT` opcode. -/
def PM4_LOAD_ALU_CONSTANT : Nat := 0x2F

/-- Modelled from the spec: `PM4_SET_SHADER_CONSTANTS` opcode. -/
def PM4_SET_SHADER_CONSTANTS : Nat := 0x56

/-- Modelled from the spec: `PM4_IM_LOAD` opcode. -/
def PM4_IM_LOAD : Nat := 0x27

/-- Modelled from the spec: `PM4_IM_LOAD_IMMEDIATE` opcode. -/
def PM4_IM_LOAD_IMMEDIATE : Nat := 0x2B

/-- Modelled from the spec: `PM4_INVALIDATE_STATE` opcode. -/
def PM4_INVALIDATE_STATE : Nat := 0x3B

/-- Modelled from the spec: `PM4_VIZ_QUERY` opcode. -/
def PM4_VIZ_QUERY : Nat := 0x23

/-- Modelled from the spec: `PM4_SET_BIN_MASK_LO` opcode. -/
def PM4_SET_BIN_MASK_LO : Nat := 0x60

/-- Modelled from the spec: `PM4_SET_BIN_MASK_HI` opcode. -/
def PM4_SET_BIN_MASK_HI : Nat := 0x61

/-- Modelled from the spec: `PM4_SET_BIN_SELECT_LO` opcode. -/
def PM4_SET_BIN_SELECT_LO : Nat := 0x62

/-- Modelled from the spec: `PM4_SET_BIN_SELECT_HI` opcode. -/
def PM4_SET_BIN_SELECT_HI : Nat := 0x63

/-- Modelled from the spec: `PM4_SET_BIN_MASK` opcode. -/
def PM4_SET_BIN_MASK : Nat := 0x50

/-- Modelled from the spec: `PM4_SET_BIN_SELECT` opcode. -/
def PM4_SET_BIN_SELECT : Nat := 0x51

/-- Modelled from the spec: `PM4_CONTEXT_UPDATE` opcode. -/
def PM4_CONTEXT_UPDATE : Nat := 0x5E

/-- Modelled from the spec: `PM4_WAIT_FOR_IDLE` opcode. -/
def PM4_WAIT_FOR_IDLE : Nat := 0x26

/-- Modelled from the spec: `VIZQUERY_START` event-initiator code. -/
def VIZQUERY_START : Nat := 0x07

/-- Modelled from the spec: `VIZQUERY_END` event-initiator code. -/
def VIZQUERY_END : Nat := 0x08

/-- Opcode field of a Type-3 header: `(packet >> 8) & 0x7F`
(`ExecutePacketType3`, line 144). -/
def opcodeOf (packet : Nat) : Nat := (packet >>> 8) &&& 0x7F

/-- Count field of a Type-3 header: `((packet >> 16) & 0x3FFF) + 1`
(`ExecutePacketType3`, line 145). -/
def countOf (packet : Nat) : Nat := ((packet >>> 16) &&& 0x3FFF) + 1

/-- `RingBuffer::ReadAndSwap<uint32_t>` lifted to the interpreter state:
read the big-endian guest word under the read cursor, advance the cursor
by 4 bytes mod capacity, and return the host-order value. -/
def sRead (s : State) : Nat × State :=
  (bswap32 (s.mem (s.reader.base + s.reader.read_offset)),
   { s with reader := s.reader.AdvanceRead 4 })

/-- `reader_.AdvanceRead n` lifted to the interpreter state. -/
def sAdvance (n : Nat) (s : State) : State :=
  { s with reader := s.reader.AdvanceRead n }

/-- `trace_writer_.WritePacketStart(ptr, words)`. -/
def tstart (ptr words : Nat) (s : State) : State :=
  { s with trace := s.trace ++ [TraceEvent.packetStart ptr words] }

/-- `trace_writer_.WritePacketEnd()`. -/
def tend (s : State) : State :=
  { s with trace := s.trace ++ [TraceEvent.packetEnd] }

/-- Append a `WritePacketEnd` to the state of a handler result (the common
postlude of the Type-3 opcode switch). -/
def tendR (rs : Bool × State) : Bool × State := (rs.1, tend rs.2)

/-- Modelled from the spec: `COMMAND_PROCESSOR::WriteRegister(index, value)`
stores the value at the index (§4.2; the side-effect hooks are external
collaborators whose effects no claim observes). -/
def writeRegister (index value : Nat) (s : State) : State :=
  { s with regs := fun i => if i = index then value else s.regs i }

/-- A direct poke of `register_file_->values[index]` (used where the source
bypasses `WriteRegister`). -/
def regSet (index value : Nat) (s : State) : State :=
  { s with regs := fun i => if i = index then value else s.regs i }

/-- `xe::store(memory_->TranslatePhysical(addr), v)`: store a 32-bit word at
a 4-byte-aligned guest address (translation is modelled as the identity). -/
def memStore (addr value : Nat) (s : State) : State :=
  { s with mem := fun a => if a = addr then value else s.mem a }

/-- `COMMAND_PROCESSOR::WriteEventInitiator(value)` (source line 626): a
direct write of `VGT_EVENT_INITIATOR`. -/
def WriteEventInitiator (value : Nat) (s : State) : State :=
  regSet XE_GPU_REG_VGT_EVENT_INITIATOR value s

/-- `static MatchValueAndRef(value, ref, wait_info)` (source lines 432-461):
the comparison selected by `wait_info & 0x7`. -/
def MatchValueAndRef (value ref wait_info : Nat) : Bool :=
  match wait_info &&& 0x7 with
  | 0 => false
  | 1 => decide (value < ref)
  | 2 => decide (value ≤ ref)
  | 3 => decide (value = ref)
  | 4 => decide (value ≠ ref)
  | 5 => decide (ref ≤ value)
  | 6 => decide (ref < value)
  | _ => true

/-- Read `n` consecutive 32-bit words from the ring (each via
`ReadAndSwap`), returning the host-order values and the advanced reader. -/
def readWords (mem : Nat → Nat) : Nat → RingBuffer → List Nat × RingBuffer
  | 0, rb => ([], rb)
  | n + 1, rb =>
    let v := bswap32 (mem (rb.base + rb.read_offset))
    let rest := readWords mem n (rb.AdvanceRead 4)
    (v :: rest.1, rest.2)

/-- Modelled from the spec: the shared shape of the
`Write...RangeFromRing(base, count)` bulk writers (§4.2): stream `count`
words from the ring and perform one write per word. -/
def writeRangeFromRing (write1 : Nat → Nat → State → State) :
    Nat → Nat → State → State
  | _, 0, s => s
  | base, n + 1, s =>
    let (v, s1) := sRead s
    writeRangeFromRing write1 (base + 1) n (write1 base v s1)

/-- Modelled from the spec: `WriteRegisterRangeFromRing(&reader_, base,
count)`. -/
def WriteRegisterRangeFromRing (base n : Nat) (s : State) : State :=
  writeRangeFromRing writeRegister base n s

/-- Modelled from the spec: `WriteOneRegisterFromRing(base, count)` writes
`count` successive ring words into the single register `base` (§3). -/
def WriteOneRegisterFromRing (base n : Nat) (s : State) : State :=
  writeRangeFromRing (fun _ v t => writeRegister base v t) base n s

/-- Write one word of the ALU constant bank. -/
def aluSet (i v : Nat) (s : State) : State :=
  { s with aluBank := fun j => if j = i then v else s.aluBank j }

/-- Write one word of the FETCH constant bank. -/
def fetchSet (i v : Nat) (s : State) : State :=
  { s with fetchBank := fun j => if j = i then v else s.fetchBank j }

/-- Write one word of the BOOL constant bank. -/
def boolSet (i v : Nat) (s : State) : State :=
  { s with boolBank := fun j => if j = i then v else s.boolBank j }

/-- Write one word of the LOOP constant bank. -/
def loopSet (i v : Nat) (s : State) : State :=
  { s with loopBank := fun j => if j = i then v else s.loopBank j }

/-- Modelled from the spec: `WriteALURangeFromRing`. -/
def WriteALURangeFromRing (base n : Nat) (s : State) : State :=
  writeRangeFromRing aluSet base n s

/-- Modelled from the spec: `WriteFetchRangeFromRing`. -/
def WriteFetchRangeFromRing (base n : Nat) (s : State) : State :=
  writeRangeFromRing fetchSet base n s

/-- Modelled from the spec: `WriteBoolRangeFromRing`. -/
def WriteBoolRangeFromRing (base n : Nat) (s : State) : State :=
  writeRangeFromRing boolSet base n s

/-- Modelled from the spec: `WriteLoopRangeFromRing`. -/
def WriteLoopRangeFromRing (base n : Nat) (s : State) : State :=
  writeRangeFromRing loopSet base n s

/-- Modelled from the spec: `WriteREGISTERSRangeFromRing`. -/
def WriteREGISTERSRangeFromRing (base n : Nat) (s : State) : State :=
  writeRangeFromRing writeRegister base n s

/-- Modelled from the spec: the shared shape of the
`Write...RangeFromMem(base, host_ptr, count)` bulk writers (§4.2): `count`
words sourced from guest memory, swapped to host order. -/
def writeRangeFromMem (write1 : Nat → Nat → State → State) :
    Nat → Nat → Nat → State → State
  | _, _, 0, s => s
  | base, addr, n + 1, s =>
    writeRangeFromMem write1 (base + 1) (addr + 4) n
      (write1 base (bswap32 (s.mem addr)) s)

/-- Modelled from the spec: `WriteALURangeFromMem`. -/
def WriteALURangeFromMem (base addr n : Nat) (s : State) : State :=
  writeRangeFromMem aluSet base addr n s

/-- Modelled from the spec: `WriteFetchRangeFromMem`. -/
def WriteFetchRangeFromMem (base addr n : Nat) (s : State) : State :=
  writeRangeFromMem fetchSet base addr n s

/-- Modelled from the spec: `WriteBoolRangeFromMem`. -/
def WriteBoolRangeFromMem (base addr n : Nat) (s : State) : State :=
  writeRangeFromMem boolSet base addr n s

/-- Modelled from the spec: `WriteLoopRangeFromMem`. -/
def WriteLoopRangeFromMem (base addr n : Nat) (s : State) : State :=
  writeRangeFromMem loopSet base addr n s

/-- Modelled from the spec: `WriteREGISTERSRangeFromMem`. -/
def WriteREGISTERSRangeFromMem (base addr n : Nat) (s : State) : State :=
  writeRangeFromMem writeRegister base addr n s

/-- `ExecutePacketType3_ME_INIT` (source lines 361-370): read `count` words
into the micro-engine buffer. -/
def ExecutePacketType3_ME_INIT (count : Nat) (s : State) : Bool × State :=
  let r := readWords s.mem count s.reader
  (true, { s with reader := r.2, me_bin := r.1 })

/-- `ExecutePacketType3_NOP` (source lines 372-378): skip `count` words. -/
def ExecutePacketType3_NOP (count : Nat) (s : State) : Bool × State :=
  (true, sAdvance (count * 4) s)

/-- The interrupt callbacks dispatched for one `cpu_mask` word: one call
per set bit among bits 0..5, in order (source lines 386-390). -/
def interruptEvents (cpu_mask : Nat) : List BackendEvent :=
  (List.range 6).filterMap fun n =>
    if cpu_mask &&& (1 <<< n) ≠ 0 then some (BackendEvent.interrupt 1 n)
    else none

/-- `ExecutePacketType3_INTERRUPT` (source lines 379-392). -/
def ExecutePacketType3_INTERRUPT (count : Nat) (s : State) : Bool × State :=
  let (cpu_mask, s1) := sRead s
  (true, { s1 with backend := s1.backend ++ interruptEvents cpu_mask })

/-- `ExecutePacketType3_XE_SWAP` (source lines 393-418): read the magic
word and the frontbuffer pointer/width/height, skip the remaining payload
(`(count - 4)` is computed in `uint32_t` arithmetic), issue the swap and
increment the frame counter. -/
def ExecutePacketType3_XE_SWAP (count : Nat) (s : State) : Bool × State :=
  let (_magic, s1) := sRead s
  let (frontbuffer_ptr, s2) := sRead s1
  let (frontbuffer_width, s3) := sRead s2
  let (frontbuffer_height, s4) := sRead s3
  let s5 := sAdvance ((count + 4294967296 - 4) % 4294967296 * 4 % 4294967296) s4
  let s6 := { s5 with backend := s5.backend ++
      [BackendEvent.issueSwap frontbuffer_ptr frontbuffer_width
        frontbuffer_height] }
  (true, { s6 with counter := s6.counter + 1 })

/-- `ExecutePacketType3_WAIT_REG_MEM` (source lines 462-518), restricted to
the observable outcomes of its polling loop: since nothing else runs while
the loop spins, the polled value never changes, so either the first poll
matches (`some (true, _)`), or the wait is cancelled because the worker was
stopped and the wait is a sleeping one (`some (false, _)`), or the loop
never returns (`none`). -/
def ExecutePacketType3_WAIT_REG_MEM (count : Nat) (s : State) :
    Option (Bool × State) :=
  let (wait_info, s1) := sRead s
  let (poll_reg_addr, s2) := sRead s1
  let (ref, s3) := sRead s2
  let (mask, s4) := sRead s3
  let (wait, s5) := sRead s4
  let vs :=
    if wait_info &&& 0x10 ≠ 0 then
      let endian := poll_reg_addr % 4
      let addr := align4 poll_reg_addr
      (GpuSwap (s5.mem addr) endian,
       { s5 with trace := s5.trace ++ [TraceEvent.memoryRead addr 4] })
    else
      if poll_reg_addr = XE_GPU_REG_COHER_STATUS_HOST then
        (s5.regs poll_reg_addr,
         { s5 with backend := s5.backend ++ [BackendEvent.makeCoherent] })
      else (s5.regs poll_reg_addr, s5)
  if MatchValueAndRef (vs.1 &&& mask) ref wait_info then some (true, vs.2)
  else if 0x100 ≤ wait ∧ vs.2.worker_running = false then some (false, vs.2)
  else none

/-- `ExecutePacketType3_REG_RMW` (source lines 519-544). -/
def ExecutePacketType3_REG_RMW (count : Nat) (s : State) : Bool × State :=
  let (rmw_info, s1) := sRead s
  let (and_mask, s2) := sRead s1
  let (or_mask, s3) := sRead s2
  let v0 := s3.regs (rmw_info &&& 0x1FFF)
  let v1 :=
    if (rmw_info >>> 31) &&& 0x1 = 1 then v0 &&& s3.regs (and_mask &&& 0x1FFF)
    else v0 &&& and_mask
  let v2 :=
    if (rmw_info >>> 30) &&& 0x1 = 1 then v1 ||| s3.regs (or_mask &&& 0x1FFF)
    else v1 ||| or_mask
  (true, writeRegister (rmw_info &&& 0x1FFF) v2 s3)

/-- `ExecutePacketType3_REG_TO_MEM` (source lines 546-566). -/
def ExecutePacketType3_REG_TO_MEM (count : Nat) (s : State) : Bool × State :=
  let (reg_addr, s1) := sRead s
  let (mem_addr, s2) := sRead s1
  let reg_val := s2.regs reg_addr
  let endian := mem_addr % 4
  let addr := align4 mem_addr
  let s3 := memStore addr (GpuSwap reg_val endian) s2
  (true, { s3 with trace := s3.trace ++ [TraceEvent.memoryWrite addr 4] })

/-- The body of the `MEM_WRITE` loop (source lines 571-580): read a word,
swap it per the endianness bits of the running address, store it, and step
the address by 4 in `uint32_t` arithmetic. -/
def memWriteLoop : Nat → Nat → State → State
  | 0, _, s => s
  | n + 1, write_addr, s =>
    let (write_data, s1) := sRead s
    let endian := write_addr % 4
    let addr := align4 write_addr
    let s2 := memStore addr (GpuSwap write_data endian) s1
    let s3 := { s2 with trace := s2.trace ++ [TraceEvent.memoryWrite addr 4] }
    memWriteLoop n ((write_addr + 4) % 4294967296) s3

/-- `ExecutePacketType3_MEM_WRITE` (source lines 567-583). -/
def ExecutePacketType3_MEM_WRITE (count : Nat) (s : State) : Bool × State :=
  let (write_addr, s1) := sRead s
  (true, memWriteLoop (count - 1) write_addr s1)

/-- `ExecutePacketType3_COND_WRITE` (source lines 584-624). -/
def ExecutePacketType3_COND_WRITE (count : Nat) (s : State) : Bool × State :=
  let (wait_info, s1) := sRead s
  let (poll_reg_addr, s2) := sRead s1
  let (ref, s3) := sRead s2
  let (mask, s4) := sRead s3
  let (write_reg_addr, s5) := sRead s4
  let (write_data, s6) := sRead s5
  let vs :=
    if wait_info &&& 0x10 ≠ 0 then
      let endian := poll_reg_addr % 4
      let addr := align4 poll_reg_addr
      (GpuSwap (s6.mem addr) endian,
       { s6 with trace := s6.trace ++ [TraceEvent.memoryRead addr 4] })
    else (s6.regs poll_reg_addr, s6)
  if MatchValueAndRef (vs.1 &&& mask) ref wait_info then
    if wait_info &&& 0x100 ≠ 0 then
      let endian := write_reg_addr % 4
      let addr := align4 write_reg_addr
      let s7 := memStore addr (GpuSwap write_data endian) vs.2
      (true, { s7 with trace := s7.trace ++ [TraceEvent.memoryWrite addr 4] })
    else (true, writeRegister write_reg_addr write_data vs.2)
  else (true, vs.2)

/-- `ExecutePacketType3_EVENT_WRITE` (source lines 629-644). -/
def ExecutePacketType3_EVENT_WRITE (count : Nat) (s : State) : Bool × State :=
  let (initiator, s1) := sRead s
  let s2 := WriteEventInitiator (initiator &&& 0x3F) s1
  if count = 1 then (true, s2)
  else (true, sAdvance ((count - 1) * 4) s2)

/-- `ExecutePacketType3_EVENT_WRITE_SHD` (source lines 645-668). -/
def ExecutePacketType3_EVENT_WRITE_SHD (count : Nat) (s : State) :
    Bool × State :=
  let (initiator, s1) := sRead s
  let (address, s2) := sRead s1
  let (value, s3) := sRead s2
  let s4 := WriteEventInitiator (initiator &&& 0x3F) s3
  let data_value :=
    if (initiator >>> 31) &&& 0x1 = 1 then s4.counter % 4294967296 else value
  let endian := address % 4
  let addr := align4 address
  let s5 := memStore addr (GpuSwap data_value endian) s4
  (true, { s5 with trace := s5.trace ++ [TraceEvent.memoryWrite addr 4] })

/-- Modelled from the spec: `kTexture2DCubeMaxWidthHeight`. -/
def kTexture2DCubeMaxWidthHeight : Nat := 8192

/-- `ExecutePacketType3_EVENT_WRITE_EXT` (source lines 670-704): write the
six hard-coded byte-swapped `uint16` screen extents (three 32-bit words on
a little-endian host) at the guest address. -/
def ExecutePacketType3_EVENT_WRITE_EXT (count : Nat) (s : State) :
    Bool × State :=
  let (initiator, s1) := sRead s
  let (address, s2) := sRead s1
  let s3 := WriteEventInitiator (initiator &&& 0x3F) s2
  let addr := align4 address
  let e0 := bswap16 (0 >>> 3)
  let e1 := bswap16 (kTexture2DCubeMaxWidthHeight >>> 3)
  let e2 := bswap16 (0 >>> 3)
  let e3 := bswap16 (kTexture2DCubeMaxWidthHeight >>> 3)
  let e4 := bswap16 0
  let e5 := bswap16 1
  let s4 := memStore addr (e0 + e1 * 65536) s3
  let s5 := memStore (addr + 4) (e2 + e3 * 65536) s4
  let s6 := memStore (addr + 8) (e4 + e5 * 65536) s5
  (true, { s6 with trace := s6.trace ++ [TraceEvent.memoryWrite addr 12] })

/-- Modelled from the spec: `memset(pSampleCounts, 0, sizeof(...))` over the
`xe_gpu_depth_sample_counts` structure, laid out as six consecutive 32-bit
words at `addr`: `ZPass_A, ZPass_B, ZFail_A, ZFail_B, Total_A, Total_B`
(the struct definition is not in the provided sources; the claims depend
only on the fields being distinct words of one structure). -/
def memZeroSampleCounts (addr : Nat) (s : State) : State :=
  { s with mem := fun a =>
      if a = addr ∨ a = addr + 4 ∨ a = addr + 8 ∨ a = addr + 12 ∨
         a = addr + 16 ∨ a = addr + 20 then 0
      else s.mem a }

/-- `ExecutePacketType3_EVENT_WRITE_ZPD` (source lines 705-738): fake an
occlusion query.  `kQueryFinished` is `byte_swap(0xFFFFFEED)`; the guard is
`cvars::query_occlusion_fake_sample_count >= 0`.  Note the structure is
zeroed unconditionally once the guard holds; the fake counts are written
only when a finished query was detected. -/
def ExecutePacketType3_EVENT_WRITE_ZPD (env : Env) (count : Nat)
    (s : State) : Bool × State :=
  let kQueryFinished := bswap32 0xFFFFFEED
  let (initiator, s1) := sRead s
  let s2 := WriteEventInitiator (initiator &&& 0x3F) s1
  if 0 ≤ env.query_occlusion_fake_sample_count then
    let fake := env.query_occlusion_fake_sample_count.toNat % 4294967296
    let addr := s2.regs XE_GPU_REG_RB_SAMPLE_COUNT_ADDR
    let is_end_via_z_pass :=
      s2.mem addr = kQueryFinished ∧ s2.mem (addr + 4) = kQueryFinished
    let is_end_via_z_fail :=
      s2.mem (addr + 8) = kQueryFinished ∧ s2.mem (addr + 12) = kQueryFinished
    let s3 := memZeroSampleCounts addr s2
    if is_end_via_z_pass ∨ is_end_via_z_fail then
      (true, memStore (addr + 16) fake (memStore addr fake s3))
    else (true, s3)
  else (true, s2)

/-- `ExecutePacketType3Draw` (source lines 740-854).  The decoded
`VGT_DRAW_INITIATOR` fields are modelled from the spec (`reg::` bitfield
definitions are not in the provided sources): `prim_type` bits 0-5,
`source_select` bits 6-7, `major_mode` bits 8-9, `index_size` bit 11,
`num_indices` bits 16-31; `PA_SC_VIZ_QUERY` has `viz_query_ena` bit 0 and
`kill_pix_post_hi_z` bit 1.  The backend draw result only affects logging,
so a completed decode always returns `true`. -/
def ExecutePacketType3Draw (count_remaining : Nat) (s : State) :
    Bool × State :=
  if count_remaining = 0 then (false, s) else
  let (vdi, s1) := sRead s
  let cr := count_remaining - 1
  let s2 := regSet XE_GPU_REG_VGT_DRAW_INITIATOR vdi s1
  let source_select := (vdi >>> 6) &&& 0x3
  let prim_type := vdi &&& 0x3F
  let num_indices := vdi >>> 16
  let major_mode := (vdi >>> 8) &&& 0x3
  let finish := fun (is_indexed : Bool) (cr' : Nat) (t : State) =>
    let t1 := sAdvance (cr' * 4) t
    let viz := t1.regs XE_GPU_REG_PA_SC_VIZ_QUERY
    if viz &&& 0x1 ≠ 0 ∧ viz &&& 0x2 ≠ 0 then (true, t1)
    else
      (true, { t1 with backend := t1.backend ++
          [BackendEvent.issueDraw prim_type num_indices is_indexed
            (major_mode ≠ 0)] })
  if source_select = 0 then
    -- kDMA: indexed draw.
    if cr = 0 then (false, s2) else
    let (vgt_dma_base, s3) := sRead s2
    let cr2 := cr - 1
    let s4 := regSet XE_GPU_REG_VGT_DMA_BASE vgt_dma_base s3
    if cr2 = 0 then (false, s4) else
    let (vgt_dma_size, s5) := sRead s4
    let cr3 := cr2 - 1
    let s6 := regSet XE_GPU_REG_VGT_DMA_SIZE vgt_dma_size s5
    finish true cr3 s6
  else if source_select = 1 then
    -- kImmediate: unsupported; consume the payload, drop the draw.
    (true, sAdvance (cr * 4) s2)
  else if source_select = 2 then
    -- kAutoIndex.
    finish false cr s2
  else
    -- Invalid source selection: consume the payload, drop the draw.
    (true, sAdvance (cr * 4) s2)

/-- `ExecutePacketType3_DRAW_INDX` (source lines 856-871): a viz-query
token followed by the draw payload. -/
def ExecutePacketType3_DRAW_INDX (count : Nat) (s : State) : Bool × State :=
  if count = 0 then (false, s) else
  let (_viz_query_condition, s1) := sRead s
  ExecutePacketType3Draw (count - 1) s1

/-- `ExecutePacketType3_DRAW_INDX_2` (source lines 873-880). -/
def ExecutePacketType3_DRAW_INDX_2 (count : Nat) (s : State) : Bool × State :=
  ExecutePacketType3Draw count s

/-- `ExecutePacketType3_SET_CONSTANT` (source lines 881-923): the first
payload word selects a bank by `type = (word >> 16) & 0xFF`; the remaining
`count - 1` words stream into that bank, or are skipped for an
unrecognized type. -/
def ExecutePacketType3_SET_CONSTANT (count : Nat) (s : State) :
    Bool × State :=
  let (offset_type, s1) := sRead s
  let index := offset_type &&& 0x7FF
  let type := (offset_type >>> 16) &&& 0xFF
  let countm1 := count - 1
  if type = 0 then (true, WriteALURangeFromRing index countm1 s1)
  else if type = 1 then (true, WriteFetchRangeFromRing index countm1 s1)
  else if type = 2 then (true, WriteBoolRangeFromRing index countm1 s1)
  else if type = 3 then (true, WriteLoopRangeFromRing index countm1 s1)
  else if type = 4 then (true, WriteREGISTERSRangeFromRing index countm1 s1)
  else (true, sAdvance ((count - 1) * 4) s1)

/-- `ExecutePacketType3_SET_CONSTANT2` (source lines 924-934). -/
def ExecutePacketType3_SET_CONSTANT2 (count : Nat) (s : State) :
    Bool × State :=
  let (offset_type, s1) := sRead s
  let index := offset_type &&& 0xFFFF
  (true, WriteRegisterRangeFromRing index (count - 1) s1)

/-- `ExecutePacketType3_LOAD_ALU_CONSTANT` (source lines 935-987). -/
def ExecutePacketType3_LOAD_ALU_CONSTANT (count : Nat) (s : State) :
    Bool × State :=
  let (address0, s1) := sRead s
  let address := address0 &&& 0x3FFFFFFF
  let (offset_type, s2) := sRead s1
  let index := offset_type &&& 0x7FF
  let (size0, s3) := sRead s2
  let size_dwords := size0 &&& 0xFFF
  let type := (offset_type >>> 16) &&& 0xFF
  if type = 0 then
    let s4 := { s3 with trace := s3.trace ++
        [TraceEvent.memoryRead address (size_dwords * 4)] }
    (true, WriteALURangeFromMem index address size_dwords s4)
  else if type = 1 then
    let s4 := { s3 with trace := s3.trace ++
        [TraceEvent.memoryRead address (size_dwords * 4)] }
    (true, WriteFetchRangeFromMem index address size_dwords s4)
  else if type = 2 then
    let s4 := { s3 with trace := s3.trace ++
        [TraceEvent.memoryRead address (size_dwords * 4)] }
    (true, WriteBoolRangeFromMem index address size_dwords s4)
  else if type = 3 then
    let s4 := { s3 with trace := s3.trace ++
        [TraceEvent.memoryRead address (size_dwords * 4)] }
    (true, WriteLoopRangeFromMem index address size_dwords s4)
  else if type = 4 then
    let s4 := { s3 with trace := s3.trace ++
        [TraceEvent.memoryRead address (size_dwords * 4)] }
    (true, WriteREGISTERSRangeFromMem index address size_dwords s4)
  else (true, s3)

/-- `ExecutePacketType3_SET_SHADER_CONSTANTS` (source lines 989-997). -/
def ExecutePacketType3_SET_SHADER_CONSTANTS (count : Nat) (s : State) :
    Bool × State :=
  let (offset_type, s1) := sRead s
  let index := offset_type &&& 0xFFFF
  (true, WriteRegisterRangeFromRing index (count - 1) s1)

/-- `ExecutePacketType3_IM_LOAD` (source lines 999-1027): shader type in
the low 2 address bits (`0 = vertex`, `1 = pixel`, else unhandled). -/
def ExecutePacketType3_IM_LOAD (env : Env) (count : Nat) (s : State) :
    Bool × State :=
  let (addr_type, s1) := sRead s
  let shader_type := addr_type &&& 0x3
  let addr := align4 addr_type
  let (start_size, s2) := sRead s1
  let size_dwords := start_size &&& 0xFFFF
  let s3 := { s2 with trace := s2.trace ++
      [TraceEvent.memoryRead addr (size_dwords * 4)] }
  let shader := env.load_shader shader_type addr size_dwords
  let s4 := { s3 with backend := s3.backend ++
      [BackendEvent.loadShader shader_type addr size_dwords] }
  if shader_type = 0 then (true, { s4 with active_vertex_shader := shader })
  else if shader_type = 1 then
    (true, { s4 with active_pixel_shader := shader })
  else (false, s4)

/-- `ExecutePacketType3_IM_LOAD_IMMEDIATE` (source lines 1029-1059): the
shader code is embedded in the packet; an unhandled shader type returns
`false` before the payload is skipped. -/
def ExecutePacketType3_IM_LOAD_IMMEDIATE (env : Env) (count : Nat)
    (s : State) : Bool × State :=
  let (dword0, s1) := sRead s
  let (dword1, s2) := sRead s1
  let shader_type := dword0
  let size_dwords := dword1 &&& 0xFFFF
  let addr := s2.reader.base + s2.reader.read_offset
  let shader := env.load_shader shader_type addr size_dwords
  let s3 := { s2 with backend := s2.backend ++
      [BackendEvent.loadShader shader_type addr size_dwords] }
  if shader_type = 0 then
    (true, sAdvance (size_dwords * 4) { s3 with active_vertex_shader := shader })
  else if shader_type = 1 then
    (true, sAdvance (size_dwords * 4) { s3 with active_pixel_shader := shader })
  else (false, s3)

/-- `ExecutePacketType3_INVALIDATE_STATE` (source lines 1061-1067). -/
def ExecutePacketType3_INVALIDATE_STATE (count : Nat) (s : State) :
    Bool × State :=
  let (_mask, s1) := sRead s
  (true, s1)

/-- `ExecutePacketType3_VIZ_QUERY` (source lines 1069-1101). -/
def ExecutePacketType3_VIZ_QUERY (count : Nat) (s : State) : Bool × State :=
  let (dword0, s1) := sRead s
  let id := dword0 &&& 0x3F
  let endq := dword0 &&& 0x100
  if endq = 0 then (true, WriteEventInitiator VIZQUERY_START s1)
  else
    let s2 := WriteEventInitiator VIZQUERY_END s1
    if id < 32 then
      (true, regSet XE_GPU_REG_PA_SC_VIZ_QUERY_STATUS_0
        (s2.regs XE_GPU_REG_PA_SC_VIZ_QUERY_STATUS_0 ||| (1 <<< id)) s2)
    else
      (true, regSet XE_GPU_REG_PA_SC_VIZ_QUERY_STATUS_1
        (s2.regs XE_GPU_REG_PA_SC_VIZ_QUERY_STATUS_1 ||| (1 <<< (id - 32))) s2)

/-- `HitUnimplementedOpcode` (source lines 351-360): skip the declared
payload, write the packet end, return `false`. -/
def HitUnimplementedOpcode (count : Nat) (s : State) : Bool × State :=
  (false, tend (sAdvance (count * 4) s))

/-- The non-recursive part of the `ExecutePacketType3` opcode switch
(source lines 171-316 without the indirect-buffer cases), including the
inline `SET_BIN_*`, `CONTEXT_UPDATE` and `WAIT_FOR_IDLE` cases and the
common `WritePacketEnd` postlude; unknown opcodes go to
`HitUnimplementedOpcode` (which writes its own packet end). -/
def ExecutePacketType3Dispatch (env : Env) (opcode count : Nat)
    (s : State) : Option (Bool × State) :=
  if opcode = PM4_ME_INIT then some (tendR (ExecutePacketType3_ME_INIT count s))
  else if opcode = PM4_NOP then some (tendR (ExecutePacketType3_NOP count s))
  else if opcode = PM4_INTERRUPT then
    some (tendR (ExecutePacketType3_INTERRUPT count s))
  else if opcode = PM4_XE_SWAP then
    some (tendR (ExecutePacketType3_XE_SWAP count s))
  else if opcode = PM4_WAIT_REG_MEM then
    (ExecutePacketType3_WAIT_REG_MEM count s).map tendR
  else if opcode = PM4_REG_RMW then
    some (tendR (ExecutePacketType3_REG_RMW count s))
  else if opcode = PM4_REG_TO_MEM then
    some (tendR (ExecutePacketType3_REG_TO_MEM count s))
  else if opcode = PM4_MEM_WRITE then
    some (tendR (ExecutePacketType3_MEM_WRITE count s))
  else if opcode = PM4_COND_WRITE then
    some (tendR (ExecutePacketType3_COND_WRITE count s))
  else if opcode = PM4_EVENT_WRITE then
    some (tendR (ExecutePacketType3_EVENT_WRITE count s))
  else if opcode = PM4_EVENT_WRITE_SHD then
    some (tendR (ExecutePacketType3_EVENT_WRITE_SHD count s))
  else if opcode = PM4_EVENT_WRITE_EXT then
    some (tendR (ExecutePacketType3_EVENT_WRITE_EXT count s))
  else if opcode = PM4_EVENT_WRITE_ZPD then
    some (tendR (ExecutePacketType3_EVENT_WRITE_ZPD env count s))
  else if opcode = PM4_DRAW_INDX then
    some (tendR (ExecutePacketType3_DRAW_INDX count s))
  else if opcode = PM4_DRAW_INDX_2 then
    some (tendR (ExecutePacketType3_DRAW_INDX_2 count s))
  else if opcode = PM4_SET_CONSTANT then
    some (tendR (ExecutePacketType3_SET_CONSTANT count s))
  else if opcode = PM4_SET_CONSTANT2 then
    some (tendR (ExecutePacketType3_SET_CONSTANT2 count s))
  else if opcode = PM4_LOAD_ALU_CONSTANT then
    some (tendR (ExecutePacketType3_LOAD_ALU_CONSTANT count s))
  else if opcode = PM4_SET_SHADER_CONSTANTS then
    some (tendR (ExecutePacketType3_SET_SHADER_CONSTANTS count s))
  else if opcode = PM4_IM_LOAD then
    some (tendR (ExecutePacketType3_IM_LOAD env count s))
  else if opcode = PM4_IM_LOAD_IMMEDIATE then
    some (tendR (ExecutePacketType3_IM_LOAD_IMMEDIATE env count s))
  else if opcode = PM4_INVALIDATE_STATE then
    some (tendR (ExecutePacketType3_INVALIDATE_STATE count s))
  else if opcode = PM4_VIZ_QUERY then
    some (tendR (ExecutePacketType3_VIZ_QUERY count s))
  else if opcode = PM4_SET_BIN_MASK_LO then
    let (value, s1) := sRead s
    some (tendR (true,
      { s1 with bin_mask := (s1.bin_mask &&& 0xFFFFFFFF00000000) ||| value }))
  else if opcode = PM4_SET_BIN_MASK_HI then
    let (value, s1) := sRead s
    some (tendR (true,
      { s1 with bin_mask := (s1.bin_mask &&& 0xFFFFFFFF) ||| (value <<< 32) }))
  else if opcode = PM4_SET_BIN_SELECT_LO then
    let (value, s1) := sRead s
    some (tendR (true,
      { s1 with bin_select :=
          (s1.bin_select &&& 0xFFFFFFFF00000000) ||| value }))
  else if opcode = PM4_SET_BIN_SELECT_HI then
    let (value, s1) := sRead s
    some (tendR (true,
      { s1 with bin_select :=
          (s1.bin_select &&& 0xFFFFFFFF) ||| (value <<< 32) }))
  else if opcode = PM4_SET_BIN_MASK then
    let (val_hi, s1) := sRead s
    let (val_lo, s2) := sRead s1
    some (tendR (true, { s2 with bin_mask := (val_hi <<< 32) ||| val_lo }))
  else if opcode = PM4_SET_BIN_SELECT then
    let (val_hi, s1) := sRead s
    let (val_lo, s2) := sRead s1
    some (tendR (true, { s2 with bin_select := (val_hi <<< 32) ||| val_lo }))
  else if opcode = PM4_CONTEXT_UPDATE then
    let (_value, s1) := sRead s
    some (tendR (true, s1))
  else if opcode = PM4_WAIT_FOR_IDLE then
    let (_value, s1) := sRead s
    some (tendR (true, s1))
  else some (HitUnimplementedOpcode count s)

/-- `ExecutePacketType0` (source lines 78-105). -/
def ExecutePacketType0 (packet : Nat) (s : State) : Bool × State :=
  let count := ((packet >>> 16) &&& 0x3FFF) + 1
  if s.reader.read_count < count * 4 then (false, s)
  else
    let s1 := tstart (s.reader.base + s.reader.read_offset - 4) (1 + count) s
    let base_index := packet &&& 0x7FFF
    let write_one_reg := (packet >>> 15) &&& 0x1
    let s2 :=
      if write_one_reg = 0 then WriteRegisterRangeFromRing base_index count s1
      else WriteOneRegisterFromRing base_index count s1
    (true, tend s2)

/-- `ExecutePacketType1` (source lines 107-119). -/
def ExecutePacketType1 (packet : Nat) (s : State) : Bool × State :=
  let s1 := tstart (s.reader.base + s.reader.read_offset - 4) 3 s
  let reg_index_1 := packet &&& 0x7FF
  let reg_index_2 := (packet >>> 11) &&& 0x7FF
  let (reg_data_1, s2) := sRead s1
  let (reg_data_2, s3) := sRead s2
  let s4 := writeRegister reg_index_1 reg_data_1 s3
  let s5 := writeRegister reg_index_2 reg_data_2 s4
  (true, tend s5)

/-- The `handle_bad_packet` path of `ExecutePacket` (source lines 70-75):
an empty trace packet of declared size 1, success. -/
def ExecuteBadPacket (s : State) : Bool × State :=
  (true, tend (tstart (s.reader.base + s.reader.read_offset - 4) 1 s))

mutual

/-- `ExecutePacket` (source lines 35-76): read the header word, treat `0`
and `0x0BADF00D` (and the unreachable Type-2 encoding, which the source
sends to the same label) as a stuffing/bad packet, otherwise dispatch on
`header >> 30`.  `0xCDCDCDCD` only logs a warning and proceeds.  The first
argument after the environment is the fuel. -/
def ExecutePacket (env : Env) : Nat → State → Option (Bool × State)
  | 0, _ => none
  | fuel + 1, s =>
    let (packet, s1) := sRead s
    let packet_type := packet >>> 30
    if packet ≠ 0 ∧ packet ≠ 0x0BADF00D then
      if packet_type = 3 then ExecutePacketType3 env fuel packet s1
      else if packet_type = 0 then some (ExecutePacketType0 packet s1)
      else if packet_type = 1 then some (ExecutePacketType1 packet s1)
      else some (ExecuteBadPacket s1)
    else some (ExecuteBadPacket s1)

/-- `ExecutePacketType3` (source lines 141-349): decode opcode and count,
check for payload overflow, write the packet start (declared size 2 for
`INDIRECT_BUFFER`, `1 + count` otherwise), apply the predicate gate, then
run the opcode switch and write the packet end. -/
def ExecutePacketType3 (env : Env) : Nat → Nat → State → Option (Bool × State)
  | 0, _, _ => none
  | fuel + 1, packet, s =>
    let opcode := (packet >>> 8) &&& 0x7F
    let count := ((packet >>> 16) &&& 0x3FFF) + 1
    if count * 4 ≤ s.reader.read_count then
      let s1 := tstart (s.reader.base + s.reader.read_offset - 4)
        (if opcode = PM4_INDIRECT_BUFFER then 2 else 1 + count) s
      -- the predicate gate reads `bin_select_` / `bin_mask_`, which the
      -- packet-start trace record does not touch, so they are read off `s`
      if packet &&& 0x1 = 1 ∧
          (s.bin_select &&& s.bin_mask = 0 ∨ opcode = PM4_XE_SWAP) then
        some (true, tend (sAdvance (count * 4) s1))
      else if opcode = PM4_INDIRECT_BUFFER ∨
          opcode = PM4_INDIRECT_BUFFER_PFD then
        let (list_ptr, s2) := sRead s1
        let (list_length0, s3) := sRead s2
        let list_length := list_length0 &&& 0xFFFFF
        match ExecuteIndirectBuffer env fuel list_ptr list_length s3 with
        | none => none
        | some s4 => some (true, tend s4)
      else ExecutePacketType3Dispatch env opcode count s1
    else some (false, s)

/-- `ExecuteIndirectBuffer` (source lines 3-33): save the reader, install a
fresh reader over the embedded stream, run packets until the stream is
drained (the loop does NOT stop on a failed packet: the `break` is
commented out in the source), then restore the saved reader. -/
def ExecuteIndirectBuffer (env : Env) :
    Nat → Nat → Nat → State → Option State
  | 0, _, _, _ => none
  | fuel + 1, ptr, count, s =>
    let s1 := { s with trace := s.trace ++
        [TraceEvent.indirectBufferStart ptr (count * 4)] }
    let old_reader := s1.reader
    let s2 := { s1 with reader :=
        ⟨ptr, count * 4, 0, count * 4 % (count * 4)⟩ }
    match IndirectBufferLoop env fuel s2 with
    | none => none
    | some s3 =>
      some { s3 with trace := s3.trace ++ [TraceEvent.indirectBufferEnd],
                     reader := old_reader }

/-- The `do { ExecutePacket(); } while (reader_.read_count());` loop of
`ExecuteIndirectBuffer` (source lines 20-29): the packet result is only
logged, never used to leave the loop. -/
def IndirectBufferLoop (env : Env) : Nat → State → Option State
  | 0, _ => none
  | fuel + 1, s =>
    match ExecutePacket env fuel s with
    | none => none
    | some (_, s1) =>
      if s1.reader.read_count = 0 then some s1
      else IndirectBufferLoop env fuel s1

end

/-- A concrete environment for concrete executions: fake sample count 1000,
shader handles all 7. -/
def env0 : Env := ⟨1000, fun _ _ _ => 7⟩

/-- The all-zero interpreter state (used as a base for concrete states). -/
def zeroState : State := {
  reader := ⟨0, 0, 0, 0⟩
  regs := fun _ => 0
  mem := fun _ => 0
  aluBank := fun _ => 0
  fetchBank := fun _ => 0
  boolBank := fun _ => 0
  loopBank := fun _ => 0
  bin_mask := 0
  bin_select := 0
  counter := 0
  me_bin := []
  active_vertex_shader := 0
  active_pixel_shader := 0
  worker_running := true
  trace := []
  backend := [] }

/-- A state whose ring has base `0x1000`, capacity `0x100` bytes, read
offset 0 and write offset `0x40` (so `0x40` bytes are available), over
all-zero memory. -/
def st64 : State := { zeroState with reader := ⟨0x1000, 0x100, 0, 0x40⟩ }

/-- Guest memory holding a 4-word indirect buffer at address 100: a Type-3
packet with the unimplemented opcode `0x7F` and count 1 (header
`0xC0007F00`, one payload word), then a Type-3 `SET_BIN_MASK_LO` packet
(header `0xC0006000`) with payload word 5.  The words are stored
big-endian, hence `bswap32`. -/
def memIB : Nat → Nat := fun a =>
  if a = 100 then bswap32 0xC0007F00
  else if a = 108 then bswap32 0xC0006000
  else if a = 112 then bswap32 5
  else 0

/-- `st64` with the indirect-buffer contents `memIB` installed. -/
def stIB : State := { st64 with mem := memIB }

/-- The state `ExecuteIndirectBuffer` runs the first inner packet from:
the inner reader installed over the 16-byte buffer at address 100. -/
def stIBinner : State := { stIB with reader := ⟨100, 16, 0, 0⟩ }

/-- A state whose ring (base 0, capacity `0x100`, offsets 0 / `0x20`)
holds the raw words `w0` then `w1` at offsets 0 and 4, with initial
`bin_mask = bm` and `bin_select = bs`.  The values a handler reads from
it are `bswap32 w0` and `bswap32 w1`, which range over all 32-bit values
as `w0`, `w1` do. -/
def binRingState (bm bs w0 w1 : Nat) : State := { zeroState with
  reader := ⟨0, 0x100, 0, 0x20⟩
  mem := fun a => if a = 0 then w0 else if a = 4 then w1 else 0
  bin_mask := bm
  bin_select := bs }

/-- Register file whose `RB_SAMPLE_COUNT_ADDR` slot holds `0x200`. -/
def regsC9 : Nat → Nat := fun i =>
  if i = XE_GPU_REG_RB_SAMPLE_COUNT_ADDR then 0x200 else 0

/-- Guest memory whose sample-count structure at `0x200` holds `ZPass_A =
1` (no query-finished sentinel anywhere). -/
def memC9 : Nat → Nat := fun a => if a = 0x200 then 1 else 0

/-- State for the `EVENT_WRITE_ZPD` run: `st64`'s ring over `memC9`, with
`RB_SAMPLE_COUNT_ADDR` pointing at `0x200`. -/
def stC9 : State := { st64 with regs := regsC9, mem := memC9 }

/-- Ring memory whose first payload word selects the unrecognized
`SET_CONSTANT` type 5 (`(word >> 16) & 0xFF = 5`). -/
def memC10 : Nat → Nat := fun a =>
  if a = 0x1000 then bswap32 (5 <<< 16) else 0

/-- State for the `SET_CONSTANT` unknown-type run. -/
def stC10 : State := { st64 with mem := memC10 }

/-- The truth table of §4.7 of the spec for the `WAIT_REG_MEM` /
`COND_WRITE` comparison, written from the spec's words: `0 = never`,
`1 = <`, `2 = ≤`, `3 = =`, `4 = ≠`, `5 = ≥`, `6 = >`, `7 = always`. -/
def MatchSpec (v r op : Nat) : Bool :=
  if op = 0 then false
  else if op = 1 then decide (v < r)
  else if op = 2 then decide (v ≤ r)
  else if op = 3 then decide (v = r)
  else if op = 4 then decide (v ≠ r)
  else if op = 5 then decide (r ≤ v)
  else if op = 6 then decide (r < v)
  else true

/-- The declared count matches the fixed payload word count of a
fixed-arity Type-3 handler (a handler that reads a fixed number of words
regardless of the header's declared count). -/
def t3FixedArityMatches (opcode count : Nat) : Prop :=
  (opcode = PM4_INTERRUPT ∧ count = 1) ∨
  (opcode = PM4_WAIT_REG_MEM ∧ count = 5) ∨
  (opcode = PM4_REG_RMW ∧ count = 3) ∨
  (opcode = PM4_REG_TO_MEM ∧ count = 2) ∨
  (opcode = PM4_COND_WRITE ∧ count = 6) ∨
  (opcode = PM4_EVENT_WRITE_SHD ∧ count = 3) ∨
  (opcode = PM4_EVENT_WRITE_EXT ∧ count = 2) ∨
  (opcode = PM4_EVENT_WRITE_ZPD ∧ count = 1) ∨
  (opcode = PM4_LOAD_ALU_CONSTANT ∧ count = 3) ∨
  (opcode = PM4_IM_LOAD ∧ count = 2) ∨
  (opcode = PM4_INVALIDATE_STATE ∧ count = 1) ∨
  (opcode = PM4_VIZ_QUERY ∧ count = 1) ∨
  (opcode = PM4_SET_BIN_MASK_LO ∧ count = 1) ∨
  (opcode = PM4_SET_BIN_MASK_HI ∧ count = 1) ∨
  (opcode = PM4_SET_BIN_SELECT_LO ∧ count = 1) ∨
  (opcode = PM4_SET_BIN_SELECT_HI ∧ count = 1) ∨
  (opcode = PM4_SET_BIN_MASK ∧ count = 2) ∨
  (opcode = PM4_SET_BIN_SELECT ∧ count = 2) ∨
  (opcode = PM4_CONTEXT_UPDATE ∧ count = 1) ∨
  (opcode = PM4_WAIT_FOR_IDLE ∧ count = 1) ∨
  (opcode = PM4_INDIRECT_BUFFER ∧ count = 2) ∨
  (opcode = PM4_INDIRECT_BUFFER_PFD ∧ count = 2)

/-- The Type-3 opcodes whose handlers always consume exactly the declared
count of payload words. -/
def t3SelfSizing (opcode : Nat) : Bool :=
  opcode = PM4_ME_INIT ∨ opcode = PM4_NOP ∨ opcode = PM4_MEM_WRITE ∨
  opcode = PM4_EVENT_WRITE ∨ opcode = PM4_DRAW_INDX ∨
  opcode = PM4_DRAW_INDX_2 ∨ opcode = PM4_SET_CONSTANT ∨
  opcode = PM4_SET_CONSTANT2 ∨ opcode = PM4_SET_SHADER_CONSTANTS

/-- The opcode is one of the Type-3 opcodes the dispatcher recognizes
(the conditions are listed in the order of the dispatcher's switch, with
the indirect-buffer opcodes last). -/
def isKnownT3Opcode (opcode : Nat) : Prop :=
  opcode = PM4_ME_INIT ∨ opcode = PM4_NOP ∨ opcode = PM4_INTERRUPT ∨
  opcode = PM4_XE_SWAP ∨ opcode = PM4_WAIT_REG_MEM ∨
  opcode = PM4_REG_RMW ∨ opcode = PM4_REG_TO_MEM ∨
  opcode = PM4_MEM_WRITE ∨ opcode = PM4_COND_WRITE ∨
  opcode = PM4_EVENT_WRITE ∨ opcode = PM4_EVENT_WRITE_SHD ∨
  opcode = PM4_EVENT_WRITE_EXT ∨ opcode = PM4_EVENT_WRITE_ZPD ∨
  opcode = PM4_DRAW_INDX ∨ opcode = PM4_DRAW_INDX_2 ∨
  opcode = PM4_SET_CONSTANT ∨ opcode = PM4_SET_CONSTANT2 ∨
  opcode = PM4_LOAD_ALU_CONSTANT ∨ opcode = PM4_SET_SHADER_CONSTANTS ∨
  opcode = PM4_IM_LOAD ∨ opcode = PM4_IM_LOAD_IMMEDIATE ∨
  opcode = PM4_INVALIDATE_STATE ∨ opcode = PM4_VIZ_QUERY ∨
  opcode = PM4_SET_BIN_MASK_LO ∨ opcode = PM4_SET_BIN_MASK_HI ∨
  opcode = PM4_SET_BIN_SELECT_LO ∨ opcode = PM4_SET_BIN_SELECT_HI ∨
  opcode = PM4_SET_BIN_MASK ∨ opcode = PM4_SET_BIN_SELECT ∨
  opcode = PM4_CONTEXT_UPDATE ∨ opcode = PM4_WAIT_FOR_IDLE ∨
  opcode = PM4_INDIRECT_BUFFER ∨ opcode = PM4_INDIRECT_BUFFER_PFD

/-- The packet's handler consumes exactly the declared payload count: the
packet is predicated away, or its opcode is self-sizing, or it is an
`XE_SWAP` with the usual `count ≥ 4`, or an `IM_LOAD_IMMEDIATE` whose
embedded shader is well-formed (`shader type ∈ {0,1}` and embedded size
equal to `count - 2`), or a fixed-arity opcode whose declared count equals
its arity, or an unknown opcode (skipped whole). -/
def consumesDeclared (s : State) (packet : Nat) : Prop :=
  (packet &&& 0x1 = 1 ∧
    (s.bin_select &&& s.bin_mask = 0 ∨ opcodeOf packet = PM4_XE_SWAP)) ∨
  t3SelfSizing (opcodeOf packet) = true ∨
  (opcodeOf packet = PM4_XE_SWAP ∧ 4 ≤ countOf packet) ∨
  (opcodeOf packet = PM4_IM_LOAD_IMMEDIATE ∧
    ((sRead s).1 = 0 ∨ (sRead s).1 = 1) ∧
    (sRead (sRead s).2).1 &&& 0xFFFF = countOf packet - 2 ∧
    2 ≤ countOf packet) ∨
  t3FixedArityMatches (opcodeOf packet) (countOf packet) ∨
  ¬ isKnownT3Opcode (opcodeOf packet)

instance (opcode count : Nat) : Decidable (t3FixedArityMatches opcode count) := by
  unfold t3FixedArityMatches
  infer_instance

instance (opcode : Nat) : Decidable (isKnownT3Opcode opcode) := by
  unfold isKnownT3Opcode
  infer_instance

instance (s : State) (packet : Nat) : Decidable (consumesDeclared s packet) := by
  unfold consumesDeclared
  infer_instance

@[simp]
theorem AdvanceRead_base (rb : RingBuffer) (n : Nat) :
    (rb.AdvanceRead n).base = rb.base := rfl

@[simp]
theorem AdvanceRead_capacity (rb : RingBuffer) (n : Nat) :
    (rb.AdvanceRead n).capacity = rb.capacity := rfl

@[simp]
theorem AdvanceRead_write_offset (rb : RingBuffer) (n : Nat) :
    (rb.AdvanceRead n).write_offset = rb.write_offset := rfl

theorem AdvanceRead_read_offset (rb : RingBuffer) (n : Nat) :
    (rb.AdvanceRead n).read_offset = (rb.read_offset + n) % rb.capacity := rfl

/-- Consecutive ring advances compose additively (modulo the capacity). -/
@[simp]
theorem AdvanceRead_AdvanceRead (rb : RingBuffer) (a b : Nat) :
    (rb.AdvanceRead a).AdvanceRead b = rb.AdvanceRead (a + b) := by
  cases rb
  simp [RingBuffer.AdvanceRead, Nat.mod_add_mod, Nat.add_assoc]

/-- Advancing by zero is the identity on in-range readers. -/
theorem AdvanceRead_zero (rb : RingBuffer)
    (hro : rb.read_offset < rb.capacity) : rb.AdvanceRead 0 = rb := by
  cases rb
  simp only [RingBuffer.AdvanceRead, Nat.add_zero]
  congr 1
  exact Nat.mod_eq_of_lt hro

theorem AdvanceRead_read_offset_lt (rb : RingBuffer) (n : Nat)
    (hcap : 0 < rb.capacity) :
    (rb.AdvanceRead n).read_offset < rb.capacity :=
  Nat.mod_lt _ hcap

theorem AdvanceRead_congr (rb : RingBuffer) {a b : Nat} (h : a = b) :
    rb.AdvanceRead a = rb.AdvanceRead b := by rw [h]

/-- Reading `n` words advances the reader by `4 * n` bytes. -/
theorem readWords_snd (mem : Nat → Nat) :
    ∀ (n : Nat) (rb : RingBuffer), 0 < rb.capacity →
      rb.read_offset < rb.capacity →
      (readWords mem n rb).2 = rb.AdvanceRead (4 * n) := by
  intro n
  induction n with
  | zero => intro rb hcap hro; simp [readWords, AdvanceRead_zero rb hro]
  | succ n ih =>
    intro rb hcap hro
    have h1 := ih (rb.AdvanceRead 4) (by simpa using hcap)
      (AdvanceRead_read_offset_lt rb 4 hcap)
    simp only [readWords, h1, AdvanceRead_AdvanceRead]
    congr 1
    omega

/-- A `writeRangeFromRing` loop whose elementary write leaves the reader
alone advances the reader by `4 * n` bytes. -/
theorem writeRangeFromRing_reader (w1 : Nat → Nat → State → State)
    (hw : ∀ i v t, (w1 i v t).reader = t.reader) :
    ∀ (n base : Nat) (s : State), 0 < s.reader.capacity →
      s.reader.read_offset < s.reader.capacity →
      (writeRangeFromRing w1 base n s).reader = s.reader.AdvanceRead (4 * n) := by
  intro n
  induction n with
  | zero => intro base s hcap hro; simp [writeRangeFromRing, AdvanceRead_zero _ hro]
  | succ n ih =>
    intro base s hcap hro
    simp only [writeRangeFromRing, sRead]
    rw [ih (base + 1) _ (by rw [hw]; simpa using hcap)
      (by rw [hw]; exact AdvanceRead_read_offset_lt _ 4 hcap)]
    rw [hw]
    simp only [AdvanceRead_AdvanceRead]
    congr 1
    omega

/-- The `MEM_WRITE` loop advances the reader by `4 * n` bytes. -/
theorem memWriteLoop_reader :
    ∀ (n addr : Nat) (s : State), 0 < s.reader.capacity →
      s.reader.read_offset < s.reader.capacity →
      (memWriteLoop n addr s).reader = s.reader.AdvanceRead (4 * n) := by
  intro n
  induction n with
  | zero => intro addr s hcap hro; simp [memWriteLoop, AdvanceRead_zero _ hro]
  | succ n ih =>
    intro addr s hcap hro
    simp only [memWriteLoop, sRead, memStore]
    rw [ih _ _ (by simpa using hcap) (AdvanceRead_read_offset_lt _ 4 hcap)]
    simp only [AdvanceRead_AdvanceRead]
    congr 1
    omega

/-- A `writeRangeFromMem` loop whose elementary write leaves the reader
alone does not move the reader. -/
theorem writeRangeFromMem_reader (w1 : Nat → Nat → State → State)
    (hw : ∀ i v t, (w1 i v t).reader = t.reader) :
    ∀ (n base addr : Nat) (s : State),
      (writeRangeFromMem w1 base addr n s).reader = s.reader := by
  intro n
  induction n with
  | zero => intro base addr s; rfl
  | succ n ih =>
    intro base addr s
    simp only [writeRangeFromMem]
    rw [ih, hw]

theorem reader_ME_INIT (count : Nat) (s : State)
    (hcap : 0 < s.reader.capacity)
    (hro : s.reader.read_offset < s.reader.capacity) :
    (ExecutePacketType3_ME_INIT count s).2.reader =
      s.reader.AdvanceRead (count * 4) := by
  dsimp only [ExecutePacketType3_ME_INIT]
  rw [readWords_snd s.mem count s.reader hcap hro]
  exact AdvanceRead_congr _ (by omega)

theorem reader_NOP (count : Nat) (s : State) :
    (ExecutePacketType3_NOP count s).2.reader =
      s.reader.AdvanceRead (count * 4) := rfl

theorem reader_INTERRUPT (count : Nat) (s : State) :
    (ExecutePacketType3_INTERRUPT count s).2.reader =
      s.reader.AdvanceRead 4 := rfl

theorem reader_XE_SWAP (count : Nat) (s : State) (h4 : 4 ≤ count)
    (hcnt : count ≤ 0x4000) :
    (ExecutePacketType3_XE_SWAP count s).2.reader =
      s.reader.AdvanceRead (count * 4) := by
  unfold ExecutePacketType3_XE_SWAP
  simp only [sRead, sAdvance, AdvanceRead_AdvanceRead]
  exact AdvanceRead_congr _ (by omega)

theorem reader_WAIT_REG_MEM (count : Nat) (s : State) (r : Bool)
    (s' : State)
    (h : ExecutePacketType3_WAIT_REG_MEM count s = some (r, s')) :
    s'.reader = s.reader.AdvanceRead 20 := by
  unfold ExecutePacketType3_WAIT_REG_MEM at h
  simp only [sRead] at h
  split_ifs at h
  all_goals try exact Option.noConfusion h
  all_goals
    (injection h with h'; injection h' with hr hs; subst hs;
     simp [AdvanceRead_AdvanceRead])

theorem reader_REG_RMW (count : Nat) (s : State) :
    (ExecutePacketType3_REG_RMW count s).2.reader =
      s.reader.AdvanceRead 12 := by
  unfold ExecutePacketType3_REG_RMW
  simp [sRead, writeRegister, AdvanceRead_AdvanceRead]

theorem reader_REG_TO_MEM (count : Nat) (s : State) :
    (ExecutePacketType3_REG_TO_MEM count s).2.reader =
      s.reader.AdvanceRead 8 := by
  unfold ExecutePacketType3_REG_TO_MEM
  simp [sRead, memStore, AdvanceRead_AdvanceRead]

theorem reader_MEM_WRITE (count : Nat) (s : State) (h1 : 1 ≤ count)
    (hcap : 0 < s.reader.capacity)
    (hro : s.reader.read_offset < s.reader.capacity) :
    (ExecutePacketType3_MEM_WRITE count s).2.reader =
      s.reader.AdvanceRead (count * 4) := by
  unfold ExecutePacketType3_MEM_WRITE
  simp only [sRead]
  rw [memWriteLoop_reader (count - 1) _ _ (by simpa using hcap)
    (AdvanceRead_read_offset_lt _ 4 hcap)]
  simp only [AdvanceRead_AdvanceRead]
  exact AdvanceRead_congr _ (by omega)

theorem reader_COND_WRITE (count : Nat) (s : State) :
    (ExecutePacketType3_COND_WRITE count s).2.reader =
      s.reader.AdvanceRead 24 := by
  unfold ExecutePacketType3_COND_WRITE
  simp only [sRead, writeRegister, memStore]
  split_ifs <;> simp [AdvanceRead_AdvanceRead]

theorem reader_EVENT_WRITE (count : Nat) (s : State) (h1 : 1 ≤ count) :
    (ExecutePacketType3_EVENT_WRITE count s).2.reader =
      s.reader.AdvanceRead (count * 4) := by
  unfold ExecutePacketType3_EVENT_WRITE
  simp only [sRead, WriteEventInitiator, regSet, sAdvance]
  split_ifs with hc
  · subst hc; rfl
  · simp only [AdvanceRead_AdvanceRead]
    exact AdvanceRead_congr _ (by omega)

theorem reader_EVENT_WRITE_SHD (count : Nat) (s : State) :
    (ExecutePacketType3_EVENT_WRITE_SHD count s).2.reader =
      s.reader.AdvanceRead 12 := by
  unfold ExecutePacketType3_EVENT_WRITE_SHD
  simp [sRead, WriteEventInitiator, regSet, memStore, AdvanceRead_AdvanceRead]

theorem reader_EVENT_WRITE_EXT (count : Nat) (s : State) :
    (ExecutePacketType3_EVENT_WRITE_EXT count s).2.reader =
      s.reader.AdvanceRead 8 := by
  unfold ExecutePacketType3_EVENT_WRITE_EXT
  simp [sRead, WriteEventInitiator, regSet, memStore, AdvanceRead_AdvanceRead]

theorem reader_EVENT_WRITE_ZPD (env : Env) (count : Nat) (s : State) :
    (ExecutePacketType3_EVENT_WRITE_ZPD env count s).2.reader =
      s.reader.AdvanceRead 4 := by
  unfold ExecutePacketType3_EVENT_WRITE_ZPD
  simp only [sRead, WriteEventInitiator, regSet, memStore,
    memZeroSampleCounts]
  split_ifs <;> rfl

theorem reader_Draw (count_remaining : Nat) (s : State)
    (hcap : 0 < s.reader.capacity)
    (hro : s.reader.read_offset < s.reader.capacity) :
    (ExecutePacketType3Draw count_remaining s).2.reader =
      s.reader.AdvanceRead (count_remaining * 4) := by
  unfold ExecutePacketType3Draw
  simp only [sRead, regSet, sAdvance]
  split_ifs with h0 h1 h2 h3 h4 h5 h6 h7 h8 h9 <;>
    simp only [AdvanceRead_AdvanceRead] <;>
    first
      | (subst h0; simp [AdvanceRead_zero _ hro])
      | (exact AdvanceRead_congr _ (by omega))

theorem reader_DRAW_INDX (count : Nat) (s : State) (h1 : 1 ≤ count)
    (hcap : 0 < s.reader.capacity)
    (hro : s.reader.read_offset < s.reader.capacity) :
    (ExecutePacketType3_DRAW_INDX count s).2.reader =
      s.reader.AdvanceRead (count * 4) := by
  unfold ExecutePacketType3_DRAW_INDX
  rw [if_neg (by omega)]
  simp only [sRead]
  rw [reader_Draw (count - 1) _ (by simpa using hcap)
    (AdvanceRead_read_offset_lt _ 4 hcap)]
  simp only [AdvanceRead_AdvanceRead]
  exact AdvanceRead_congr _ (by omega)

theorem reader_DRAW_INDX_2 (count : Nat) (s : State)
    (hcap : 0 < s.reader.capacity)
    (hro : s.reader.read_offset < s.reader.capacity) :
    (ExecutePacketType3_DRAW_INDX_2 count s).2.reader =
      s.reader.AdvanceRead (count * 4) :=
  reader_Draw count s hcap hro

theorem reader_SET_CONSTANT (count : Nat) (s : State) (h1 : 1 ≤ count)
    (hcap : 0 < s.reader.capacity)
    (hro : s.reader.read_offset < s.reader.capacity) :
    (ExecutePacketType3_SET_CONSTANT count s).2.reader =
      s.reader.AdvanceRead (count * 4) := by
  unfold ExecutePacketType3_SET_CONSTANT
  simp only [sRead, WriteALURangeFromRing, WriteFetchRangeFromRing,
    WriteBoolRangeFromRing, WriteLoopRangeFromRing,
    WriteREGISTERSRangeFromRing, sAdvance]
  split_ifs
  · refine (writeRangeFromRing_reader aluSet (fun i v t => rfl) _ _ _ ?_ ?_).trans ?_
    · simpa using hcap
    · simpa using AdvanceRead_read_offset_lt s.reader 4 hcap
    · simp only [AdvanceRead_AdvanceRead]
      exact AdvanceRead_congr _ (by omega)
  · refine (writeRangeFromRing_reader fetchSet (fun i v t => rfl) _ _ _ ?_ ?_).trans ?_
    · simpa using hcap
    · simpa using AdvanceRead_read_offset_lt s.reader 4 hcap
    · simp only [AdvanceRead_AdvanceRead]
      exact AdvanceRead_congr _ (by omega)
  · refine (writeRangeFromRing_reader boolSet (fun i v t => rfl) _ _ _ ?_ ?_).trans ?_
    · simpa using hcap
    · simpa using AdvanceRead_read_offset_lt s.reader 4 hcap
    · simp only [AdvanceRead_AdvanceRead]
      exact AdvanceRead_congr _ (by omega)
  · refine (writeRangeFromRing_reader loopSet (fun i v t => rfl) _ _ _ ?_ ?_).trans ?_
    · simpa using hcap
    · simpa using AdvanceRead_read_offset_lt s.reader 4 hcap
    · simp only [AdvanceRead_AdvanceRead]
      exact AdvanceRead_congr _ (by omega)
  · refine (writeRangeFromRing_reader writeRegister (fun i v t => rfl) _ _ _ ?_ ?_).trans ?_
    · simpa using hcap
    · simpa using AdvanceRead_read_offset_lt s.reader 4 hcap
    · simp only [AdvanceRead_AdvanceRead]
      exact AdvanceRead_congr _ (by omega)
  · simp only [AdvanceRead_AdvanceRead]
    exact AdvanceRead_congr _ (by omega)

theorem reader_SET_CONSTANT2 (count : Nat) (s : State) (h1 : 1 ≤ count)
    (hcap : 0 < s.reader.capacity)
    (hro : s.reader.read_offset < s.reader.capacity) :
    (ExecutePacketType3_SET_CONSTANT2 count s).2.reader =
      s.reader.AdvanceRead (count * 4) := by
  unfold ExecutePacketType3_SET_CONSTANT2
  simp only [sRead, WriteRegisterRangeFromRing]
  refine (writeRangeFromRing_reader writeRegister (fun i v t => rfl) _ _ _ ?_ ?_).trans ?_
  · simpa using hcap
  · simpa using AdvanceRead_read_offset_lt s.reader 4 hcap
  · simp only [AdvanceRead_AdvanceRead]
    exact AdvanceRead_congr _ (by omega)

theorem reader_LOAD_ALU_CONSTANT (count : Nat) (s : State) :
    (ExecutePacketType3_LOAD_ALU_CONSTANT count s).2.reader =
      s.reader.AdvanceRead 12 := by
  unfold ExecutePacketType3_LOAD_ALU_CONSTANT
  simp only [sRead, WriteALURangeFromMem, WriteFetchRangeFromMem,
    WriteBoolRangeFromMem, WriteLoopRangeFromMem, WriteREGISTERSRangeFromMem,
    AdvanceRead_AdvanceRead]
  split_ifs
  · rw [writeRangeFromMem_reader aluSet (fun i v t => rfl)]
  · rw [writeRangeFromMem_reader fetchSet (fun i v t => rfl)]
  · rw [writeRangeFromMem_reader boolSet (fun i v t => rfl)]
  · rw [writeRangeFromMem_reader loopSet (fun i v t => rfl)]
  · rw [writeRangeFromMem_reader writeRegister (fun i v t => rfl)]
  · rfl

theorem reader_SET_SHADER_CONSTANTS (count : Nat) (s : State)
    (h1 : 1 ≤ count) (hcap : 0 < s.reader.capacity)
    (hro : s.reader.read_offset < s.reader.capacity) :
    (ExecutePacketType3_SET_SHADER_CONSTANTS count s).2.reader =
      s.reader.AdvanceRead (count * 4) := by
  unfold ExecutePacketType3_SET_SHADER_CONSTANTS
  simp only [sRead, WriteRegisterRangeFromRing]
  refine (writeRangeFromRing_reader writeRegister (fun i v t => rfl) _ _ _ ?_ ?_).trans ?_
  · simpa using hcap
  · simpa using AdvanceRead_read_offset_lt s.reader 4 hcap
  · simp only [AdvanceRead_AdvanceRead]
    exact AdvanceRead_congr _ (by omega)

theorem reader_IM_LOAD (env : Env) (count : Nat) (s : State) :
    (ExecutePacketType3_IM_LOAD env count s).2.reader =
      s.reader.AdvanceRead 8 := by
  unfold ExecutePacketType3_IM_LOAD
  simp only [sRead]
  split_ifs <;> simp [AdvanceRead_AdvanceRead]

theorem reader_IM_LOAD_IMMEDIATE (env : Env) (count : Nat) (s : State)
    (h01 : (sRead s).1 = 0 ∨ (sRead s).1 = 1) :
    (ExecutePacketType3_IM_LOAD_IMMEDIATE env count s).2.reader =
      s.reader.AdvanceRead (8 + ((sRead (sRead s).2).1 &&& 0xFFFF) * 4) := by
  unfold ExecutePacketType3_IM_LOAD_IMMEDIATE
  rcases h01 with h | h <;>
    (simp only [sRead] at h ⊢; rw [h]) <;>
    simp [sAdvance, AdvanceRead_AdvanceRead]

theorem reader_INVALIDATE_STATE (count : Nat) (s : State) :
    (ExecutePacketType3_INVALIDATE_STATE count s).2.reader =
      s.reader.AdvanceRead 4 := rfl

theorem reader_VIZ_QUERY (count : Nat) (s : State) :
    (ExecutePacketType3_VIZ_QUERY count s).2.reader =
      s.reader.AdvanceRead 4 := by
  unfold ExecutePacketType3_VIZ_QUERY
  simp only [sRead, WriteEventInitiator, regSet]
  split_ifs <;> rfl

/-- Whenever `ExecuteIndirectBuffer` returns, the ring reader of the
resulting state is exactly the caller's reader (the source saves
`reader_` before installing the inner reader and restores it at the
end, with no early exit). -/
theorem indirectBuffer_restores (env : Env) (fuel ptr count : Nat)
    (s s' : State) (h : ExecuteIndirectBuffer env fuel ptr count s = some s') :
    s'.reader = s.reader := by
  cases fuel with
  | zero => exact Option.noConfusion h
  | succ fuel =>
    unfold ExecuteIndirectBuffer at h
    simp only [] at h
    split at h
    · exact Option.noConfusion h
    · rw [← Option.some.inj h]

theorem countOf_pos (packet : Nat) : 1 ≤ countOf packet :=
  Nat.succ_le_succ (Nat.zero_le _)

theorem countOf_le (packet : Nat) : countOf packet ≤ 0x4000 := by
  unfold countOf
  have h := Nat.and_le_right (n := packet >>> 16) (m := 0x3FFF)
  omega

theorem some_tendR_inv {X : Bool × State} {r : Bool} {s' : State}
    (h : some (tendR X) = some (r, s')) : s'.reader = X.2.reader := by
  have h2 : (tendR X).2 = s' := congrArg Prod.snd (Option.some.inj h)
  rw [← h2]
  rfl

/-- Whenever the Type-3 opcode switch returns, and the declared count is
consistent with the opcode (self-sizing opcode, an `XE_SWAP` of count at
least 4, a well-formed `IM_LOAD_IMMEDIATE`, a fixed-arity opcode with
matching count, or an unknown opcode), the ring reader has advanced by
exactly `4 * count` bytes. -/
theorem dispatch_reader (env : Env) (opcode count : Nat) (s : State)
    (r : Bool) (s' : State)
    (hcap : 0 < s.reader.capacity)
    (hro : s.reader.read_offset < s.reader.capacity)
    (h1 : 1 ≤ count) (hcnt : count ≤ 0x4000)
    (hwf : t3SelfSizing opcode = true ∨
      (opcode = PM4_XE_SWAP ∧ 4 ≤ count) ∨
      (opcode = PM4_IM_LOAD_IMMEDIATE ∧
        ((sRead s).1 = 0 ∨ (sRead s).1 = 1) ∧
        (sRead (sRead s).2).1 &&& 0xFFFF = count - 2 ∧ 2 ≤ count) ∨
      t3FixedArityMatches opcode count ∨
      ¬ isKnownT3Opcode opcode)
    (hrun : ExecutePacketType3Dispatch env opcode count s = some (r, s')) :
    s'.reader = s.reader.AdvanceRead (count * 4) := by
  rcases hwf with hself | ⟨hop, h4⟩ | ⟨hop, h01, hsize, h2c⟩ | hfix | hunk
  · have hs : opcode = PM4_ME_INIT ∨ opcode = PM4_NOP ∨
        opcode = PM4_MEM_WRITE ∨ opcode = PM4_EVENT_WRITE ∨
        opcode = PM4_DRAW_INDX ∨ opcode = PM4_DRAW_INDX_2 ∨
        opcode = PM4_SET_CONSTANT ∨ opcode = PM4_SET_CONSTANT2 ∨
        opcode = PM4_SET_SHADER_CONSTANTS := by
      simpa [t3SelfSizing] using hself
    rcases hs with hop | hop | hop | hop | hop | hop | hop | hop | hop
    · subst hop
      rw [show ExecutePacketType3Dispatch env PM4_ME_INIT count s =
        some (tendR (ExecutePacketType3_ME_INIT count s)) from rfl] at hrun
      rw [some_tendR_inv hrun, reader_ME_INIT count s hcap hro]
    · subst hop
      rw [show ExecutePacketType3Dispatch env PM4_NOP count s =
        some (tendR (ExecutePacketType3_NOP count s)) from rfl] at hrun
      rw [some_tendR_inv hrun, reader_NOP count s]
    · subst hop
      rw [show ExecutePacketType3Dispatch env PM4_MEM_WRITE count s =
        some (tendR (ExecutePacketType3_MEM_WRITE count s)) from rfl] at hrun
      rw [some_tendR_inv hrun, reader_MEM_WRITE count s h1 hcap hro]
    · subst hop
      rw [show ExecutePacketType3Dispatch env PM4_EVENT_WRITE count s =
        some (tendR (ExecutePacketType3_EVENT_WRITE count s)) from rfl] at hrun
      rw [some_tendR_inv hrun, reader_EVENT_WRITE count s h1]
    · subst hop
      rw [show ExecutePacketType3Dispatch env PM4_DRAW_INDX count s =
        some (tendR (ExecutePacketType3_DRAW_INDX count s)) from rfl] at hrun
      rw [some_tendR_inv hrun, reader_DRAW_INDX count s h1 hcap hro]
    · subst hop
      rw [show ExecutePacketType3Dispatch env PM4_DRAW_INDX_2 count s =
        some (tendR (ExecutePacketType3_DRAW_INDX_2 count s)) from rfl] at hrun
      rw [some_tendR_inv hrun, reader_DRAW_INDX_2 count s hcap hro]
    · subst hop
      rw [show ExecutePacketType3Dispatch env PM4_SET_CONSTANT count s =
        some (tendR (ExecutePacketType3_SET_CONSTANT count s)) from rfl] at hrun
      rw [some_tendR_inv hrun, reader_SET_CONSTANT count s h1 hcap hro]
    · subst hop
      rw [show ExecutePacketType3Dispatch env PM4_SET_CONSTANT2 count s =
        some (tendR (ExecutePacketType3_SET_CONSTANT2 count s)) from rfl] at hrun
      rw [some_tendR_inv hrun, reader_SET_CONSTANT2 count s h1 hcap hro]
    · subst hop
      rw [show ExecutePacketType3Dispatch env PM4_SET_SHADER_CONSTANTS count s =
        some (tendR (ExecutePacketType3_SET_SHADER_CONSTANTS count s)) from
        rfl] at hrun
      rw [some_tendR_inv hrun,
        reader_SET_SHADER_CONSTANTS count s h1 hcap hro]
  · subst hop
    rw [show ExecutePacketType3Dispatch env PM4_XE_SWAP count s =
      some (tendR (ExecutePacketType3_XE_SWAP count s)) from rfl] at hrun
    rw [some_tendR_inv hrun, reader_XE_SWAP count s h4 hcnt]
  · subst hop
    rw [show ExecutePacketType3Dispatch env PM4_IM_LOAD_IMMEDIATE count s =
      some (tendR (ExecutePacketType3_IM_LOAD_IMMEDIATE env count s)) from
      rfl] at hrun
    rw [some_tendR_inv hrun, reader_IM_LOAD_IMMEDIATE env count s h01]
    exact AdvanceRead_congr _ (by omega)
  · unfold t3FixedArityMatches at hfix
    rcases hfix with ⟨hop, hc⟩ | ⟨hop, hc⟩ | ⟨hop, hc⟩ | ⟨hop, hc⟩ |
      ⟨hop, hc⟩ | ⟨hop, hc⟩ | ⟨hop, hc⟩ | ⟨hop, hc⟩ | ⟨hop, hc⟩ |
      ⟨hop, hc⟩ | ⟨hop, hc⟩ | ⟨hop, hc⟩ | ⟨hop, hc⟩ | ⟨hop, hc⟩ |
      ⟨hop, hc⟩ | ⟨hop, hc⟩ | ⟨hop, hc⟩ | ⟨hop, hc⟩ | ⟨hop, hc⟩ |
      ⟨hop, hc⟩ | ⟨hop, hc⟩ | ⟨hop, hc⟩
    · subst hop
      rw [show ExecutePacketType3Dispatch env PM4_INTERRUPT count s =
        some (tendR (ExecutePacketType3_INTERRUPT count s)) from rfl] at hrun
      rw [some_tendR_inv hrun, reader_INTERRUPT count s]
      exact AdvanceRead_congr _ (by omega)
    · subst hop
      rw [show ExecutePacketType3Dispatch env PM4_WAIT_REG_MEM count s =
        (ExecutePacketType3_WAIT_REG_MEM count s).map tendR from rfl] at hrun
      rcases hW : ExecutePacketType3_WAIT_REG_MEM count s with _ | rs
      · rw [hW] at hrun
        exact Option.noConfusion hrun
      · rw [hW] at hrun
        rw [show (some rs).map tendR = some (tendR rs) from rfl] at hrun
        obtain ⟨r0, s0⟩ := rs
        rw [some_tendR_inv hrun, reader_WAIT_REG_MEM count s r0 s0 hW]
        exact AdvanceRead_congr _ (by omega)
    · subst hop
      rw [show ExecutePacketType3Dispatch env PM4_REG_RMW count s =
        some (tendR (ExecutePacketType3_REG_RMW count s)) from rfl] at hrun
      rw [some_tendR_inv hrun, reader_REG_RMW count s]
      exact AdvanceRead_congr _ (by omega)
    · subst hop
      rw [show ExecutePacketType3Dispatch env PM4_REG_TO_MEM count s =
        some (tendR (ExecutePacketType3_REG_TO_MEM count s)) from rfl] at hrun
      rw [some_tendR_inv hrun, reader_REG_TO_MEM count s]
      exact AdvanceRead_congr _ (by omega)
    · subst hop
      rw [show ExecutePacketType3Dispatch env PM4_COND_WRITE count s =
        some (tendR (ExecutePacketType3_COND_WRITE count s)) from rfl] at hrun
      rw [some_tendR_inv hrun, reader_COND_WRITE count s]
      exact AdvanceRead_congr _ (by omega)
    · subst hop
      rw [show ExecutePacketType3Dispatch env PM4_EVENT_WRITE_SHD count s =
        some (tendR (ExecutePacketType3_EVENT_WRITE_SHD count s)) from
        rfl] at hrun
      rw [some_tendR_inv hrun, reader_EVENT_WRITE_SHD count s]
      exact AdvanceRead_congr _ (by omega)
    · subst hop
      rw [show ExecutePacketType3Dispatch env PM4_EVENT_WRITE_EXT count s =
        some (tendR (ExecutePacketType3_EVENT_WRITE_EXT count s)) from
        rfl] at hrun
      rw [some_tendR_inv hrun, reader_EVENT_WRITE_EXT count s]
      exact AdvanceRead_congr _ (by omega)
    · subst hop
      rw [show ExecutePacketType3Dispatch env PM4_EVENT_WRITE_ZPD count s =
        some (tendR (ExecutePacketType3_EVENT_WRITE_ZPD env count s)) from
        rfl] at hrun
      rw [some_tendR_inv hrun, reader_EVENT_WRITE_ZPD env count s]
      exact AdvanceRead_congr _ (by omega)
    · subst hop
      rw [show ExecutePacketType3Dispatch env PM4_LOAD_ALU_CONSTANT count s =
        some (tendR (ExecutePacketType3_LOAD_ALU_CONSTANT count s)) from
        rfl] at hrun
      rw [some_tendR_inv hrun, reader_LOAD_ALU_CONSTANT count s]
      exact AdvanceRead_congr _ (by omega)
    · subst hop
      rw [show ExecutePacketType3Dispatch env PM4_IM_LOAD count s =
        some (tendR (ExecutePacketType3_IM_LOAD env count s)) from rfl] at hrun
      rw [some_tendR_inv hrun, reader_IM_LOAD env count s]
      exact AdvanceRead_congr _ (by omega)
    · subst hop
      rw [show ExecutePacketType3Dispatch env PM4_INVALIDATE_STATE count s =
        some (tendR (ExecutePacketType3_INVALIDATE_STATE count s)) from
        rfl] at hrun
      rw [some_tendR_inv hrun, reader_INVALIDATE_STATE count s]
      exact AdvanceRead_congr _ (by omega)
    · subst hop
      rw [show ExecutePacketType3Dispatch env PM4_VIZ_QUERY count s =
        some (tendR (ExecutePacketType3_VIZ_QUERY count s)) from rfl] at hrun
      rw [some_tendR_inv hrun, reader_VIZ_QUERY count s]
      exact AdvanceRead_congr _ (by omega)
    · subst hop
      rw [show ExecutePacketType3Dispatch env PM4_SET_BIN_MASK_LO count s =
        some (tendR (true, { (sRead s).2 with bin_mask :=
          ((sRead s).2.bin_mask &&& 0xFFFFFFFF00000000) ||| (sRead s).1 }))
        from rfl] at hrun
      rw [some_tendR_inv hrun]
      show s.reader.AdvanceRead 4 = s.reader.AdvanceRead (count * 4)
      exact AdvanceRead_congr _ (by omega)
    · subst hop
      rw [show ExecutePacketType3Dispatch env PM4_SET_BIN_MASK_HI count s =
        some (tendR (true, { (sRead s).2 with bin_mask :=
          ((sRead s).2.bin_mask &&& 0xFFFFFFFF) ||| ((sRead s).1 <<< 32) }))
        from rfl] at hrun
      rw [some_tendR_inv hrun]
      show s.reader.AdvanceRead 4 = s.reader.AdvanceRead (count * 4)
      exact AdvanceRead_congr _ (by omega)
    · subst hop
      rw [show ExecutePacketType3Dispatch env PM4_SET_BIN_SELECT_LO count s =
        some (tendR (true, { (sRead s).2 with bin_select :=
          ((sRead s).2.bin_select &&& 0xFFFFFFFF00000000) ||| (sRead s).1 }))
        from rfl] at hrun
      rw [some_tendR_inv hrun]
      show s.reader.AdvanceRead 4 = s.reader.AdvanceRead (count * 4)
      exact AdvanceRead_congr _ (by omega)
    · subst hop
      rw [show ExecutePacketType3Dispatch env PM4_SET_BIN_SELECT_HI count s =
        some (tendR (true, { (sRead s).2 with bin_select :=
          ((sRead s).2.bin_select &&& 0xFFFFFFFF) ||| ((sRead s).1 <<< 32) }))
        from rfl] at hrun
      rw [some_tendR_inv hrun]
      show s.reader.AdvanceRead 4 = s.reader.AdvanceRead (count * 4)
      exact AdvanceRead_congr _ (by omega)
    · subst hop
      rw [show ExecutePacketType3Dispatch env PM4_SET_BIN_MASK count s =
        some (tendR (true, { (sRead (sRead s).2).2 with bin_mask :=
          ((sRead s).1 <<< 32) ||| (sRead (sRead s).2).1 })) from rfl] at hrun
      rw [some_tendR_inv hrun]
      show (s.reader.AdvanceRead 4).AdvanceRead 4 =
        s.reader.AdvanceRead (count * 4)
      rw [AdvanceRead_AdvanceRead]
      exact AdvanceRead_congr _ (by omega)
    · subst hop
      rw [show ExecutePacketType3Dispatch env PM4_SET_BIN_SELECT count s =
        some (tendR (true, { (sRead (sRead s).2).2 with bin_select :=
          ((sRead s).1 <<< 32) ||| (sRead (sRead s).2).1 })) from rfl] at hrun
      rw [some_tendR_inv hrun]
      show (s.reader.AdvanceRead 4).AdvanceRead 4 =
        s.reader.AdvanceRead (count * 4)
      rw [AdvanceRead_AdvanceRead]
      exact AdvanceRead_congr _ (by omega)
    · subst hop
      rw [show ExecutePacketType3Dispatch env PM4_CONTEXT_UPDATE count s =
        some (tendR (true, (sRead s).2)) from rfl] at hrun
      rw [some_tendR_inv hrun]
      show s.reader.AdvanceRead 4 = s.reader.AdvanceRead (count * 4)
      exact AdvanceRead_congr _ (by omega)
    · subst hop
      rw [show ExecutePacketType3Dispatch env PM4_WAIT_FOR_IDLE count s =
        some (tendR (true, (sRead s).2)) from rfl] at hrun
      rw [some_tendR_inv hrun]
      show s.reader.AdvanceRead 4 = s.reader.AdvanceRead (count * 4)
      exact AdvanceRead_congr _ (by omega)
    · subst hop
      rw [show ExecutePacketType3Dispatch env PM4_INDIRECT_BUFFER count s =
        some (HitUnimplementedOpcode count s) from rfl] at hrun
      have h2 : (HitUnimplementedOpcode count s).2 = s' :=
        congrArg Prod.snd (Option.some.inj hrun)
      rw [← h2]
      rfl
    · subst hop
      rw [show ExecutePacketType3Dispatch env PM4_INDIRECT_BUFFER_PFD count s =
        some (HitUnimplementedOpcode count s) from rfl] at hrun
      have h2 : (HitUnimplementedOpcode count s).2 = s' :=
        congrArg Prod.snd (Option.some.inj hrun)
      rw [← h2]
      rfl
  · unfold isKnownT3Opcode at hunk
    simp only [not_or] at hunk
    obtain ⟨n1, n2, n3, n4, n5, n6, n7, n8, n9, n10, n11, n12, n13, n14, n15,
      n16, n17, n18, n19, n20, n21, n22, n23, n24, n25, n26, n27, n28, n29,
      n30, n31, n32, n33⟩ := hunk
    unfold ExecutePacketType3Dispatch at hrun
    rw [if_neg n1, if_neg n2, if_neg n3, if_neg n4, if_neg n5, if_neg n6,
      if_neg n7, if_neg n8, if_neg n9, if_neg n10, if_neg n11, if_neg n12,
      if_neg n13, if_neg n14, if_neg n15, if_neg n16, if_neg n17, if_neg n18,
      if_neg n19, if_neg n20, if_neg n21, if_neg n22, if_neg n23, if_neg n24,
      if_neg n25, if_neg n26, if_neg n27, if_neg n28, if_neg n29, if_neg n30,
      if_neg n31] at hrun
    have h2 : (HitUnimplementedOpcode count s).2 = s' :=
      congrArg Prod.snd (Option.some.inj hrun)
    rw [← h2]
    rfl

/-- C1 (amended): for every Type-3 packet that `ExecutePacketType3`
executes (at least `4 * count` bytes of ring data available) and whose
declared count is consistent with its opcode's payload consumption
(`consumesDeclared`), when the function returns, the ring reader's read
offset equals the offset recorded just after reading the header word plus
`4 * count`, modulo the ring capacity. -/
theorem C1_type3_reader_advances_declared_count
    (env : Env) (fuel packet : Nat) (s : State) (r : Bool) (s' : State)
    (hcap : 0 < s.reader.capacity)
    (hro : s.reader.read_offset < s.reader.capacity)
    (hgd : countOf packet * 4 ≤ s.reader.read_count)
    (hwf : consumesDeclared s packet)
    (hrun : ExecutePacketType3 env fuel packet s = some (r, s')) :
    s'.reader.read_offset =
      (s.reader.read_offset + countOf packet * 4) % s.reader.capacity := by
  show s'.reader.read_offset =
    (s.reader.read_offset + (((packet >>> 16) &&& 0x3FFF) + 1) * 4) %
      s.reader.capacity
  unfold consumesDeclared opcodeOf countOf at hwf
  cases fuel with
  | zero => exact Option.noConfusion hrun
  | succ fuel =>
    unfold ExecutePacketType3 at hrun
    simp only [sRead] at hrun
    rw [if_pos (show (((packet >>> 16) &&& 0x3FFF) + 1) * 4 ≤
      s.reader.read_count from hgd)] at hrun
    by_cases hskipc : packet &&& 0x1 = 1 ∧
        (s.bin_select &&& s.bin_mask = 0 ∨
          (packet >>> 8) &&& 0x7F = PM4_XE_SWAP)
    · rw [if_pos hskipc] at hrun
      have h2 : _ = s' := congrArg Prod.snd (Option.some.inj hrun)
      rw [← h2]
      rfl
    · rw [if_neg hskipc] at hrun
      by_cases hibc : (packet >>> 8) &&& 0x7F = PM4_INDIRECT_BUFFER ∨
          (packet >>> 8) &&& 0x7F = PM4_INDIRECT_BUFFER_PFD
      · rw [if_pos hibc] at hrun
        have hc2 : ((packet >>> 16) &&& 0x3FFF) + 1 = 2 := by
          rcases hwf with h | h | h | h | h | h
          · exact absurd h hskipc
          · exfalso
            rcases hibc with hib1 | hib1 <;> rw [hib1] at h <;>
              exact absurd h (by decide)
          · obtain ⟨hop, _⟩ := h
            exfalso
            rcases hibc with hib1 | hib1 <;> rw [hop] at hib1 <;>
              exact absurd hib1 (by decide)
          · obtain ⟨hop, _⟩ := h
            exfalso
            rcases hibc with hib1 | hib1 <;> rw [hop] at hib1 <;>
              exact absurd hib1 (by decide)
          · unfold t3FixedArityMatches at h
            rcases h with ⟨hop, hc⟩ | ⟨hop, hc⟩ | ⟨hop, hc⟩ | ⟨hop, hc⟩ |
              ⟨hop, hc⟩ | ⟨hop, hc⟩ | ⟨hop, hc⟩ | ⟨hop, hc⟩ | ⟨hop, hc⟩ |
              ⟨hop, hc⟩ | ⟨hop, hc⟩ | ⟨hop, hc⟩ | ⟨hop, hc⟩ | ⟨hop, hc⟩ |
              ⟨hop, hc⟩ | ⟨hop, hc⟩ | ⟨hop, hc⟩ | ⟨hop, hc⟩ | ⟨hop, hc⟩ |
              ⟨hop, hc⟩ | ⟨hop, hc⟩ | ⟨hop, hc⟩ <;>
              first
                | exact hc
                | (exfalso
                   rcases hibc with hib1 | hib1 <;> rw [hop] at hib1 <;>
                     exact absurd hib1 (by decide))
          · exfalso
            refine h ?_
            unfold isKnownT3Opcode
            rcases hibc with hib1 | hib1 <;> rw [hib1] <;> simp
        split at hrun
        · exact Option.noConfusion hrun
        · rename_i s4 heq
          have h2 : _ = s' := congrArg Prod.snd (Option.some.inj hrun)
          rw [← h2]
          show s4.reader.read_offset = _
          rw [indirectBuffer_restores _ _ _ _ _ _ heq]
          show ((s.reader.AdvanceRead 4).AdvanceRead 4).read_offset = _
          rw [AdvanceRead_AdvanceRead]
          show (s.reader.read_offset + (4 + 4)) % s.reader.capacity = _
          exact congrArg (fun x => x % s.reader.capacity) (by omega)
      · rw [if_neg hibc] at hrun
        have hd := dispatch_reader env ((packet >>> 8) &&& 0x7F)
          (((packet >>> 16) &&& 0x3FFF) + 1)
          (tstart (s.reader.base + s.reader.read_offset - 4)
            (if (packet >>> 8) &&& 0x7F = PM4_INDIRECT_BUFFER then 2
             else 1 + (((packet >>> 16) &&& 0x3FFF) + 1)) s)
          r s' hcap hro (Nat.succ_le_succ (Nat.zero_le _))
          (countOf_le packet)
          (by
            rcases hwf with h | h | h | h | h | h
            · exact absurd h hskipc
            · exact Or.inl h
            · exact Or.inr (Or.inl h)
            · exact Or.inr (Or.inr (Or.inl h))
            · exact Or.inr (Or.inr (Or.inr (Or.inl h)))
            · exact Or.inr (Or.inr (Or.inr (Or.inr h)))) hrun
        rw [hd]
        rfl

/-- C1 (counterexample): the claim as stated fails on the code: an
`INTERRUPT` packet with declared count 2 (header `0x00015400`) and enough
ring data executes, returns, and leaves the read offset at
`start_offset + 4` (the handler reads exactly one word), not at
`(start_offset + 4 * 2) % capacity = 8`. -/
theorem C1_counterexample :
    (ExecutePacketType3 env0 1 0x15400 st64).map
      (fun rs => rs.2.reader.read_offset) = some 4 ∧
    (st64.reader.read_offset + countOf 0x15400 * 4) %
      st64.reader.capacity = 8 ∧
    countOf 0x15400 * 4 ≤ st64.reader.read_count ∧
    (4 : Nat) ≠ 8 := by
  refine ⟨by decide, by decide, by decide, by decide⟩

/-- C1 (witness): the amended claim applied to a `NOP` packet with count 3
on a concrete ring. -/
theorem C1_type3_reader_advances_declared_count_witness :
    (0 < st64.reader.capacity ∧
     st64.reader.read_offset < st64.reader.capacity ∧
     countOf 0x21000 * 4 ≤ st64.reader.read_count ∧
     consumesDeclared st64 0x21000) ∧
    ∃ r s', ExecutePacketType3 env0 1 0x21000 st64 = some (r, s') ∧
      s'.reader.read_offset =
        (st64.reader.read_offset + countOf 0x21000 * 4) %
          st64.reader.capacity := by
  constructor
  · exact ⟨by decide, by decide, by decide, by decide⟩
  · obtain ⟨r, s', hrs⟩ :
        ∃ r s', ExecutePacketType3 env0 1 0x21000 st64 = some (r, s') :=
      ⟨_, _, rfl⟩
    exact ⟨r, s', hrs,
      C1_type3_reader_advances_declared_count env0 1 0x21000 st64 r s'
        (by decide) (by decide) (by decide) (by decide) hrs⟩

/-- C2: a Type-3 packet with the predicate bit set, under
`(bin_select & bin_mask) == 0` or opcode `XE_SWAP`, advances the ring
reader by exactly `4 * count` bytes, emits the packet-start/packet-end
trace records, returns `true`, and leaves the register file, guest
memory, constant banks, backend call log and frame counter unchanged
(the resulting state differs from the input state only in the reader and
the trace). -/
theorem C2_predicated_skip (env : Env) (fuel packet : Nat) (s : State)
    (hpred : packet &&& 0x1 = 1)
    (hgate : s.bin_select &&& s.bin_mask = 0 ∨ opcodeOf packet = PM4_XE_SWAP)
    (hgd : countOf packet * 4 ≤ s.reader.read_count) :
    ∃ p w, ExecutePacketType3 env (fuel + 1) packet s =
      some (true, { s with
        reader := s.reader.AdvanceRead (countOf packet * 4),
        trace := s.trace ++ [TraceEvent.packetStart p w,
          TraceEvent.packetEnd] }) := by
  refine ⟨s.reader.base + s.reader.read_offset - 4,
    if opcodeOf packet = PM4_INDIRECT_BUFFER then 2 else 1 + countOf packet,
    ?_⟩
  unfold ExecutePacketType3
  simp only []
  rw [if_pos (show (((packet >>> 16) &&& 0x3FFF) + 1) * 4 ≤
    s.reader.read_count from hgd)]
  rw [if_pos (show packet &&& 0x1 = 1 ∧
    (s.bin_select &&& s.bin_mask = 0 ∨
      (packet >>> 8) &&& 0x7F = PM4_XE_SWAP) from ⟨hpred, hgate⟩)]
  simp [tstart, tend, sAdvance, countOf, opcodeOf, List.append_assoc]

/-- C2 (witness): a predicated `NOP` packet (header `0x00001001`) under
zero bin select/mask on a concrete ring. -/
theorem C2_predicated_skip_witness :
    (0x1001 &&& 0x1 = 1 ∧
     (st64.bin_select &&& st64.bin_mask = 0 ∨
       opcodeOf 0x1001 = PM4_XE_SWAP) ∧
     countOf 0x1001 * 4 ≤ st64.reader.read_count) ∧
    ∃ p w, ExecutePacketType3 env0 1 0x1001 st64 =
      some (true, { st64 with
        reader := st64.reader.AdvanceRead (countOf 0x1001 * 4),
        trace := st64.trace ++ [TraceEvent.packetStart p w,
          TraceEvent.packetEnd] }) := by
  refine ⟨⟨by decide, Or.inl (by decide), by decide⟩, ?_⟩
  exact C2_predicated_skip env0 0 0x1001 st64 (by decide)
    (Or.inl (by decide)) (by decide)

/-- C3: `MatchValueAndRef(v, ref, wait_info)` returns exactly the
comparison selected by `wait_info & 0x7`, as given by the §4.7 truth
table (`0 = never`, `1 = <`, `2 = ≤`, `3 = =`, `4 = ≠`, `5 = ≥`, `6 = >`,
`7 = always`). -/
theorem C3_match_value_and_ref (v r wi : Nat) :
    MatchValueAndRef v r wi = MatchSpec v r (wi &&& 0x7) := by
  have hle : wi &&& 0x7 ≤ 7 := Nat.and_le_right
  have h8 : wi &&& 0x7 = 0 ∨ wi &&& 0x7 = 1 ∨ wi &&& 0x7 = 2 ∨
      wi &&& 0x7 = 3 ∨ wi &&& 0x7 = 4 ∨ wi &&& 0x7 = 5 ∨
      wi &&& 0x7 = 6 ∨ wi &&& 0x7 = 7 := by omega
  rcases h8 with h | h | h | h | h | h | h | h <;>
    simp [MatchValueAndRef, MatchSpec, h]

/-- C5: `ExecuteIndirectBuffer` restores the caller's ring reader
exactly (base, capacity, read and write offsets) whenever it returns,
whatever the inner stream contained. -/
theorem C5_indirect_buffer_restores_reader (env : Env)
    (fuel ptr count : Nat) (s s' : State)
    (h : ExecuteIndirectBuffer env fuel ptr count s = some s') :
    s'.reader = s.reader :=
  indirectBuffer_restores env fuel ptr count s s' h

/-- C5 (witness): a concrete indirect buffer (whose inner stream even
ends after a failing packet) returns with the outer reader intact. -/
theorem C5_indirect_buffer_restores_reader_witness :
    ∃ s', ExecuteIndirectBuffer env0 9 100 4 stIB = some s' ∧
      s'.reader = stIB.reader := by
  obtain ⟨s', h⟩ :
      ∃ s', ExecuteIndirectBuffer env0 9 100 4 stIB = some s' := ⟨_, rfl⟩
  exact ⟨s', h,
    C5_indirect_buffer_restores_reader env0 9 100 4 stIB s' h⟩

/-- C7: when the declared payload exceeds the available ring data,
`ExecutePacketType3` returns `false` with the state completely
unchanged: the reader is not advanced past the header, no trace
packet-start is emitted, and no opcode handler runs. -/
theorem C7_count_overflow (env : Env) (fuel packet : Nat) (s : State)
    (hov : s.reader.read_count < countOf packet * 4) :
    ExecutePacketType3 env (fuel + 1) packet s = some (false, s) := by
  unfold ExecutePacketType3
  simp only []
  rw [if_neg (by unfold countOf at hov; omega)]

/-- C7 (witness): a Type-3 header declaring count `0x4000` (64 KiB of
payload) against a ring with only `0x40` bytes available. -/
theorem C7_count_overflow_witness :
    st64.reader.read_count < countOf 0x3FFF0000 * 4 ∧
    ExecutePacketType3 env0 1 0x3FFF0000 st64 = some (false, st64) :=
  ⟨by decide, C7_count_overflow env0 0 0x3FFF0000 st64 (by decide)⟩

/-- C8: a header word of `0` or `0x0BADF00D` makes `ExecutePacket` emit
exactly one packet-start record of declared word count 1 followed by one
packet-end record, consume only the header word (the reader advances 4
bytes), perform no register, memory, or backend effect, and return
`true`. -/
theorem C8_bad_header_packet (env : Env) (fuel : Nat) (s : State)
    (hhdr : bswap32 (s.mem (s.reader.base + s.reader.read_offset)) = 0 ∨
      bswap32 (s.mem (s.reader.base + s.reader.read_offset)) = 0x0BADF00D) :
    ∃ p, ExecutePacket env (fuel + 1) s =
      some (true, { s with
        reader := s.reader.AdvanceRead 4,
        trace := s.trace ++ [TraceEvent.packetStart p 1,
          TraceEvent.packetEnd] }) := by
  refine ⟨s.reader.base + (s.reader.read_offset + 4) % s.reader.capacity - 4,
    ?_⟩
  unfold ExecutePacket
  simp only [sRead]
  rcases hhdr with h | h <;> rw [h] <;>
    rw [if_neg (by decide)] <;>
    simp [ExecuteBadPacket, tstart, tend, RingBuffer.AdvanceRead,
      List.append_assoc]

/-- C8 (witness): the all-zero ring word at the read cursor is a zero
header. -/
theorem C8_bad_header_packet_witness :
    (bswap32 (st64.mem (st64.reader.base + st64.reader.read_offset)) = 0 ∨
     bswap32 (st64.mem (st64.reader.base + st64.reader.read_offset)) =
       0x0BADF00D) ∧
    ∃ p, ExecutePacket env0 1 st64 =
      some (true, { st64 with
        reader := st64.reader.AdvanceRead 4,
        trace := st64.trace ++ [TraceEvent.packetStart p 1,
          TraceEvent.packetEnd] }) :=
  ⟨Or.inl (by decide), C8_bad_header_packet env0 0 st64 (Or.inl (by decide))⟩

/-- C4 (code bug): a failed packet does NOT terminate the indirect
buffer.  In the 4-word buffer `memIB` at address 100, the first packet
(unimplemented opcode `0x7F`) fails (`ExecutePacket` returns `false`),
yet `ExecuteIndirectBuffer` goes on to execute the second packet
(`SET_BIN_MASK_LO` with payload 5): after the call `bin_mask` is 5,
though it started at 0.  The source's own comment says a bad packet
should return up a level, but the `break` is commented out. -/
theorem C4_bad_packet_continues_indirect_buffer :
    (ExecutePacket env0 8 stIBinner).map (fun rs => rs.1) = some false ∧
    (ExecuteIndirectBuffer env0 9 100 4 stIB).map (fun t => t.bin_mask) =
      some 5 ∧
    stIB.bin_mask = 0 := by
  refine ⟨by decide, by decide, by decide⟩

/-- C9 (amended): for every `EVENT_WRITE_ZPD` packet with a non-negative
configured fake sample count: if the sample-count structure at the
address in `RB_SAMPLE_COUNT_ADDR` holds the byte-swapped sentinel
`0xFFFFFEED` in both words of the `ZPass` pair or both words of the
`ZFail` pair, the handler zeroes the structure and writes the fake count
into `ZPass_A` and `Total_A`; otherwise the structure is zeroed (NOT
left unchanged, contrary to the original claim).  Memory outside the
structure is untouched and the handler returns `true`. -/
theorem C9_event_write_zpd_amended (env : Env) (count : Nat) (s : State)
    (addr fake : Nat)
    (haddr : addr = s.regs XE_GPU_REG_RB_SAMPLE_COUNT_ADDR)
    (hfakev : fake = env.query_occlusion_fake_sample_count.toNat % 4294967296)
    (hfake : 0 ≤ env.query_occlusion_fake_sample_count) :
    (ExecutePacketType3_EVENT_WRITE_ZPD env count s).1 = true ∧
    (((s.mem addr = bswap32 0xFFFFFEED ∧
       s.mem (addr + 4) = bswap32 0xFFFFFEED) ∨
      (s.mem (addr + 8) = bswap32 0xFFFFFEED ∧
       s.mem (addr + 12) = bswap32 0xFFFFFEED)) →
      ((ExecutePacketType3_EVENT_WRITE_ZPD env count s).2.mem addr = fake ∧
       (ExecutePacketType3_EVENT_WRITE_ZPD env count s).2.mem (addr + 16) =
         fake ∧
       (ExecutePacketType3_EVENT_WRITE_ZPD env count s).2.mem (addr + 4) = 0 ∧
       (ExecutePacketType3_EVENT_WRITE_ZPD env count s).2.mem (addr + 8) = 0 ∧
       (ExecutePacketType3_EVENT_WRITE_ZPD env count s).2.mem (addr + 12) = 0 ∧
       (ExecutePacketType3_EVENT_WRITE_ZPD env count s).2.mem (addr + 20) =
         0)) ∧
    (¬ ((s.mem addr = bswap32 0xFFFFFEED ∧
         s.mem (addr + 4) = bswap32 0xFFFFFEED) ∨
        (s.mem (addr + 8) = bswap32 0xFFFFFEED ∧
         s.mem (addr + 12) = bswap32 0xFFFFFEED)) →
      ((ExecutePacketType3_EVENT_WRITE_ZPD env count s).2.mem addr = 0 ∧
       (ExecutePacketType3_EVENT_WRITE_ZPD env count s).2.mem (addr + 4) = 0 ∧
       (ExecutePacketType3_EVENT_WRITE_ZPD env count s).2.mem (addr + 8) = 0 ∧
       (ExecutePacketType3_EVENT_WRITE_ZPD env count s).2.mem (addr + 12) = 0 ∧
       (ExecutePacketType3_EVENT_WRITE_ZPD env count s).2.mem (addr + 16) = 0 ∧
       (ExecutePacketType3_EVENT_WRITE_ZPD env count s).2.mem (addr + 20) =
         0)) ∧
    (∀ a, a ≠ addr → a ≠ addr + 4 → a ≠ addr + 8 → a ≠ addr + 12 →
      a ≠ addr + 16 → a ≠ addr + 20 →
      (ExecutePacketType3_EVENT_WRITE_ZPD env count s).2.mem a = s.mem a) := by
  subst haddr
  subst hfakev
  unfold ExecutePacketType3_EVENT_WRITE_ZPD
  simp only [sRead, WriteEventInitiator, regSet,
    XE_GPU_REG_RB_SAMPLE_COUNT_ADDR, XE_GPU_REG_VGT_EVENT_INITIATOR]
  simp only [show ((8455 : Nat) = 8697) = False from by decide, if_false]
  rw [if_pos hfake]
  by_cases hsent : (s.mem (s.regs 0x2107) = bswap32 0xFFFFFEED ∧
      s.mem (s.regs 0x2107 + 4) = bswap32 0xFFFFFEED) ∨
      (s.mem (s.regs 0x2107 + 8) = bswap32 0xFFFFFEED ∧
       s.mem (s.regs 0x2107 + 12) = bswap32 0xFFFFFEED)
  · rw [if_pos hsent]
    refine ⟨rfl, fun _ => ?_, fun hns => absurd hsent hns, fun a h0 h4 h8 h12 h16 h20 => ?_⟩
    · refine ⟨?_, ?_, ?_, ?_, ?_, ?_⟩ <;>
        simp [memStore, memZeroSampleCounts] <;> omega
    · simp [memStore, memZeroSampleCounts, h0, h4, h8, h12, h16, h20]
  · rw [if_neg hsent]
    refine ⟨rfl, fun hs => absurd hs hsent, fun _ => ?_, fun a h0 h4 h8 h12 h16 h20 => ?_⟩
    · refine ⟨?_, ?_, ?_, ?_, ?_, ?_⟩ <;>
        simp [memZeroSampleCounts]
    · simp [memZeroSampleCounts, h0, h4, h8, h12, h16, h20]

/-- C9 (counterexample): with a non-negative configured fake sample
count, a sample-count structure containing no sentinel (its `ZPass_A` is
1) is zeroed by `EVENT_WRITE_ZPD` rather than left unchanged, refuting
the claim's `otherwise the structure is left unchanged`. -/
theorem C9_counterexample :
    (ExecutePacketType3_EVENT_WRITE_ZPD env0 1 stC9).2.mem 0x200 = 0 ∧
    stC9.mem 0x200 = 1 ∧
    ¬ ((stC9.mem 0x200 = bswap32 0xFFFFFEED ∧
        stC9.mem 0x204 = bswap32 0xFFFFFEED) ∨
       (stC9.mem 0x208 = bswap32 0xFFFFFEED ∧
        stC9.mem 0x20C = bswap32 0xFFFFFEED)) ∧
    0 ≤ env0.query_occlusion_fake_sample_count := by
  refine ⟨by decide, by decide, by decide, by decide⟩

/-- C9 (witness): the amended claim applied at a concrete state whose
sample-count structure is at `0x200` and holds no sentinel. -/
theorem C9_event_write_zpd_amended_witness :
    ((0x200 : Nat) = stC9.regs XE_GPU_REG_RB_SAMPLE_COUNT_ADDR ∧
     (1000 : Nat) =
       env0.query_occlusion_fake_sample_count.toNat % 4294967296 ∧
     0 ≤ env0.query_occlusion_fake_sample_count) ∧
    ((ExecutePacketType3_EVENT_WRITE_ZPD env0 1 stC9).1 = true ∧
     (((stC9.mem 0x200 = bswap32 0xFFFFFEED ∧
        stC9.mem (0x200 + 4) = bswap32 0xFFFFFEED) ∨
       (stC9.mem (0x200 + 8) = bswap32 0xFFFFFEED ∧
        stC9.mem (0x200 + 12) = bswap32 0xFFFFFEED)) →
       ((ExecutePacketType3_EVENT_WRITE_ZPD env0 1 stC9).2.mem 0x200 = 1000 ∧
        (ExecutePacketType3_EVENT_WRITE_ZPD env0 1 stC9).2.mem (0x200 + 16) =
          1000 ∧
        (ExecutePacketType3_EVENT_WRITE_ZPD env0 1 stC9).2.mem (0x200 + 4) =
          0 ∧
        (ExecutePacketType3_EVENT_WRITE_ZPD env0 1 stC9).2.mem (0x200 + 8) =
          0 ∧
        (ExecutePacketType3_EVENT_WRITE_ZPD env0 1 stC9).2.mem (0x200 + 12) =
          0 ∧
        (ExecutePacketType3_EVENT_WRITE_ZPD env0 1 stC9).2.mem (0x200 + 20) =
          0)) ∧
     (¬ ((stC9.mem 0x200 = bswap32 0xFFFFFEED ∧
          stC9.mem (0x200 + 4) = bswap32 0xFFFFFEED) ∨
         (stC9.mem (0x200 + 8) = bswap32 0xFFFFFEED ∧
          stC9.mem (0x200 + 12) = bswap32 0xFFFFFEED)) →
       ((ExecutePacketType3_EVENT_WRITE_ZPD env0 1 stC9).2.mem 0x200 = 0 ∧
        (ExecutePacketType3_EVENT_WRITE_ZPD env0 1 stC9).2.mem (0x200 + 4) =
          0 ∧
        (ExecutePacketType3_EVENT_WRITE_ZPD env0 1 stC9).2.mem (0x200 + 8) =
          0 ∧
        (ExecutePacketType3_EVENT_WRITE_ZPD env0 1 stC9).2.mem (0x200 + 12) =
          0 ∧
        (ExecutePacketType3_EVENT_WRITE_ZPD env0 1 stC9).2.mem (0x200 + 16) =
          0 ∧
        (ExecutePacketType3_EVENT_WRITE_ZPD env0 1 stC9).2.mem (0x200 + 20) =
          0)) ∧
     (∀ a, a ≠ 0x200 → a ≠ 0x200 + 4 → a ≠ 0x200 + 8 → a ≠ 0x200 + 12 →
       a ≠ 0x200 + 16 → a ≠ 0x200 + 20 →
       (ExecutePacketType3_EVENT_WRITE_ZPD env0 1 stC9).2.mem a =
         stC9.mem a)) :=
  ⟨⟨by decide, by decide, by decide⟩,
   C9_event_write_zpd_amended env0 1 stC9 0x200 1000 (by decide) (by decide)
     (by decide)⟩

/-- C10: a `SET_CONSTANT` packet whose first payload word has a type
field greater than 4 consumes the remaining `count - 1` payload words,
writes nothing to the register file or any constant bank (the resulting
state differs only in the reader and the trace), and returns `true`. -/
theorem C10_set_constant_unknown_type (env : Env) (fuel packet : Nat)
    (s : State)
    (hop : opcodeOf packet = PM4_SET_CONSTANT)
    (hpred : packet &&& 0x1 = 0)
    (hgd : countOf packet * 4 ≤ s.reader.read_count)
    (htype : 4 <
      (bswap32 (s.mem (s.reader.base + s.reader.read_offset)) >>> 16) &&&
        0xFF) :
    ∃ p w, ExecutePacketType3 env (fuel + 1) packet s =
      some (true, { s with
        reader := s.reader.AdvanceRead (4 + (countOf packet - 1) * 4),
        trace := s.trace ++ [TraceEvent.packetStart p w,
          TraceEvent.packetEnd] }) := by
  unfold opcodeOf at hop
  refine ⟨s.reader.base + s.reader.read_offset - 4, 1 + countOf packet, ?_⟩
  unfold ExecutePacketType3
  simp only []
  rw [if_pos (show (((packet >>> 16) &&& 0x3FFF) + 1) * 4 ≤
    s.reader.read_count from hgd)]
  rw [if_neg (show ¬ (packet &&& 0x1 = 1 ∧
      (s.bin_select &&& s.bin_mask = 0 ∨
        (packet >>> 8) &&& 0x7F = PM4_XE_SWAP)) from
    fun h => by rw [hpred] at h; exact absurd h.1 (by decide))]
  rw [hop]
  rw [if_neg (show ¬ (PM4_SET_CONSTANT = PM4_INDIRECT_BUFFER ∨
    PM4_SET_CONSTANT = PM4_INDIRECT_BUFFER_PFD) from by decide)]
  rw [show ExecutePacketType3Dispatch env PM4_SET_CONSTANT
      (((packet >>> 16) &&& 0x3FFF) + 1)
      (tstart (s.reader.base + s.reader.read_offset - 4)
        (if PM4_SET_CONSTANT = PM4_INDIRECT_BUFFER then 2
         else 1 + (((packet >>> 16) &&& 0x3FFF) + 1)) s) =
    some (tendR (ExecutePacketType3_SET_CONSTANT
      (((packet >>> 16) &&& 0x3FFF) + 1)
      (tstart (s.reader.base + s.reader.read_offset - 4)
        (if PM4_SET_CONSTANT = PM4_INDIRECT_BUFFER then 2
         else 1 + (((packet >>> 16) &&& 0x3FFF) + 1)) s))) from rfl]
  unfold ExecutePacketType3_SET_CONSTANT
  simp only [sRead, tstart]
  rw [if_neg (by omega), if_neg (by omega), if_neg (by omega),
    if_neg (by omega), if_neg (by omega)]
  simp [tendR, tend, sAdvance, countOf, List.append_assoc,
    PM4_SET_CONSTANT, PM4_INDIRECT_BUFFER]

/-- Every byte-swapped value fits in 32 bits. -/
theorem bswap32_lt (x : Nat) : bswap32 x < 4294967296 := by
  unfold bswap32
  simp only []
  omega

/-- Merging a low write followed by a high write: masking the low half
of `(bm & hi-mask) | lo` and or-ing in `hi <<< 32` gives exactly
`(hi <<< 32) | lo`, for any 32-bit `lo`. -/
theorem setLoHi_merge (bm lo hi : Nat) (hlo : lo < 4294967296) :
    (((bm &&& 0xFFFFFFFF00000000) ||| lo) &&& 0xFFFFFFFF) ||| (hi <<< 32) =
      (hi <<< 32) ||| lo := by
  have hm : (0xFFFFFFFF00000000 : Nat) = (2 ^ 32 - 1) <<< 32 := by
    rw [Nat.shiftLeft_eq]
    norm_num
  have hl : (0xFFFFFFFF : Nat) = 2 ^ 32 - 1 := by norm_num
  rw [hm, hl]
  apply Nat.eq_of_testBit_eq
  intro i
  simp only [Nat.testBit_lor, Nat.testBit_land, Nat.testBit_shiftLeft,
    Nat.testBit_two_pow_sub_one]
  by_cases h : i < 32
  · have hd : ¬ (32 ≤ i) := by omega
    simp [h, hd]
  · have hd : 32 ≤ i := by omega
    have hlo' : lo.testBit i = false :=
      Nat.testBit_lt_two_pow
        (lt_of_lt_of_le hlo
          (Nat.pow_le_pow_right (show 0 < 2 by norm_num) hd))
    simp [h, hd, hlo']

/-- C6: for every pair of payload words, dispatching `SET_BIN_MASK_LO`
and then `SET_BIN_MASK_HI` (each consuming one ring word) leaves
`bin_mask = (hi <<< 32) ||| lo`, the same 64-bit value the two-word
`SET_BIN_MASK` packet `\x7bhi, lo\x7d` produces from the same initial
`bin_mask`; and the same holds for `SET_BIN_SELECT_LO`/`HI` versus
`SET_BIN_SELECT` on `bin_select`.  Here `lo = bswap32 w0` and
`hi = bswap32 w1` range over all 32-bit values. -/
theorem C6_bin_lo_hi_matches_full (env : Env) (bm bs w0 w1 : Nat) :
    (∃ s1 s2,
      ExecutePacketType3Dispatch env PM4_SET_BIN_MASK_LO 1
        (binRingState bm bs w0 w1) = some (true, s1) ∧
      ExecutePacketType3Dispatch env PM4_SET_BIN_MASK_HI 1 s1 =
        some (true, s2) ∧
      s2.bin_mask = (bswap32 w1 <<< 32) ||| bswap32 w0 ∧
      (ExecutePacketType3Dispatch env PM4_SET_BIN_MASK 2
          (binRingState bm bs w1 w0)).map (fun rs => rs.2.bin_mask) =
        some s2.bin_mask) ∧
    (∃ s1 s2,
      ExecutePacketType3Dispatch env PM4_SET_BIN_SELECT_LO 1
        (binRingState bm bs w0 w1) = some (true, s1) ∧
      ExecutePacketType3Dispatch env PM4_SET_BIN_SELECT_HI 1 s1 =
        some (true, s2) ∧
      s2.bin_select = (bswap32 w1 <<< 32) ||| bswap32 w0 ∧
      (ExecutePacketType3Dispatch env PM4_SET_BIN_SELECT 2
          (binRingState bm bs w1 w0)).map (fun rs => rs.2.bin_select) =
        some s2.bin_select) := by
  refine ⟨⟨_, _, rfl, rfl, ?_, ?_⟩, ⟨_, _, rfl, rfl, ?_, ?_⟩⟩
  · exact setLoHi_merge bm (bswap32 w0) (bswap32 w1) (bswap32_lt w0)
  · exact congrArg some
      (setLoHi_merge bm (bswap32 w0) (bswap32 w1) (bswap32_lt w0)).symm
  · exact setLoHi_merge bs (bswap32 w0) (bswap32 w1) (bswap32_lt w0)
  · exact congrArg some
      (setLoHi_merge bs (bswap32 w0) (bswap32 w1) (bswap32_lt w0)).symm

/-- C10 (witness): a `SET_CONSTANT` packet with count 3 whose first
payload word has type field 5. -/
theorem C10_set_constant_unknown_type_witness :
    (opcodeOf 0x22D00 = PM4_SET_CONSTANT ∧ 0x22D00 &&& 0x1 = 0 ∧
     countOf 0x22D00 * 4 ≤ stC10.reader.read_count ∧
     4 < (bswap32 (stC10.mem (stC10.reader.base +
       stC10.reader.read_offset)) >>> 16) &&& 0xFF) ∧
    ∃ p w, ExecutePacketType3 env0 1 0x22D00 stC10 =
      some (true, { stC10 with
        reader := stC10.reader.AdvanceRead (4 + (countOf 0x22D00 - 1) * 4),
        trace := stC10.trace ++ [TraceEvent.packetStart p w,
          TraceEvent.packetEnd] }) :=
  ⟨⟨by decide, by decide, by decide, by decide⟩,
   C10_set_constant_unknown_type env0 0 0x22D00 stC10 (by decide) (by decide)
     (by decide) (by decide)⟩

end PM4
